import Mathlib

/-!
Verification of the RequestTap gateway request-admission pipeline.

This file gives a shallow embedding, in Lean 4, of the core of the
RequestTap gateway: the canonical request hash (packages/gateway/src/hash.ts),
the in-memory replay store (packages/gateway/src/replay.ts), the AP2 mandate
verifiers and spend trackers (packages/gateway/src/ap2.ts), the SSRF guard
(utils/ssrf.ts), the idempotency and mandate middleware
(middleware/idempotency.ts, middleware/mandate.ts) and the request pipeline
of createApp (server.ts).

Modelling conventions:
* keccak256 composed with toHex is modelled by an abstract function
  H : String → String; theorems that need collision-freedom take
  Function.Injective H as a hypothesis.
* new Date(s).getTime() is modelled by an abstract parse function
  dateParse : String → Option Int, where none stands for an Invalid Date
  (NaN timestamp).
* parseFloat on the decimal numerals used for prices is modelled by the
  executable parser parseFloatQ below, returning an exact rational.
  JS floating point numbers are modelled as exact rationals.
* JS Map objects are modelled as association lists where set replaces the
  binding in place.
* setTimeout deletion timers of the replay store are modelled explicitly:
  a state carries the set of live map keys together with the multiset of
  pending (key, fire-time) timers, and each operation first fires every
  timer that is due.
* Receipt fields whose values depend on wall-clock time or randomness
  (request_id, timestamp, latency_ms) and constant metadata fields
  (currency, chain, mandate_hash, payment_tx_hash, facilitator_receipt_id,
  explanation) are elided from the receipt model.
-/

namespace RequestTap

/-! ### String and number primitives

The JS string methods used by the gateway are modelled by structurally
recursive functions over the character list of the string (the library
versions use well-founded recursion over byte positions, which the kernel
cannot evaluate; the list versions compute the same functions on the
ASCII data handled by the gateway). -/

/-- Models String.prototype.toLowerCase on the ASCII data in scope. -/
def strLower (s : String) : String := ⟨s.data.map Char.toLower⟩

/-- Models String.prototype.toUpperCase on the ASCII data in scope. -/
def strUpper (s : String) : String := ⟨s.data.map Char.toUpper⟩

/-- Models String.prototype.startsWith. -/
def strStartsWith (s p : String) : Bool := p.data.isPrefixOf s.data

/-- Models String.prototype.endsWith. -/
def strEndsWith (s p : String) : Bool := p.data.isSuffixOf s.data

/-- Drops the first n characters. -/
def strDrop (s : String) (n : Nat) : String := ⟨s.data.drop n⟩

/-- Keeps the first n characters. -/
def strTake (s : String) (n : Nat) : String := ⟨s.data.take n⟩

/-- Drops the last n characters. -/
def strDropRight (s : String) (n : Nat) : String := ⟨s.data.take (s.data.length - n)⟩

/-- Helper of strSplitOnChar: accumulates the current segment reversed. -/
def splitCharAux (sep : Char) : List Char → List Char → List (List Char)
  | [], acc => [acc.reverse]
  | c :: cs, acc =>
      if c = sep then acc.reverse :: splitCharAux sep cs []
      else splitCharAux sep cs (c :: acc)

/-- Models String.prototype.split on a one-character separator (empty
segments are kept, and the empty string yields one empty segment). -/
def strSplitOnChar (sep : Char) (s : String) : List String :=
  (splitCharAux sep s.data []).map (fun l => ⟨l⟩)

/-- Addition of rationals through mkRat, which the kernel can evaluate;
qAdd_eq below shows it is ordinary rational addition. -/
def qAdd (a b : ℚ) : ℚ :=
  mkRat (a.num * (b.den : Int) + b.num * (a.den : Int)) (a.den * b.den)

theorem qAdd_eq (a b : ℚ) : qAdd a b = a + b := by
  unfold qAdd
  rw [Rat.mkRat_eq_div]
  push_cast
  conv_rhs => rw [← Rat.num_div_den a, ← Rat.num_div_den b]
  rw [div_add_div _ _ (by exact_mod_cast a.den_nz) (by exact_mod_cast b.den_nz)]
  ring_nf

/-- Models the JS string idiom `x || d`: the empty string is falsy. -/
def orDefault (s d : String) : String := if s = "" then d else s

/-- Models the JS relational comparison `new Date(a) < new Date(b)` on the
already-parsed timestamps: any comparison involving an Invalid Date (NaN)
is false. -/
def jsDateLt (a b : Option Int) : Bool :=
  match a, b with
  | some x, some y => x < y
  | _, _ => false

/-- Value of a decimal digit character, none for other characters. -/
def digitVal (c : Char) : Option Nat :=
  if c.isDigit then some (c.toNat - 48) else none

/-- Decimal value of a list of digit characters. -/
def digitsToNat (l : List Char) : Nat :=
  l.foldl (fun acc c => acc * 10 + (c.toNat - 48)) 0

/-- Models parseFloat restricted to plain decimal numerals
(optional sign, integer digits, optional fraction digits), the only
number shapes that reach it in the gateway. Unparsable input maps to 0
(in JS it would be NaN; no NaN ever reaches an approved path). -/
def parseFloatQ (s : String) : ℚ :=
  let (neg, rest) :=
    match s.data with
    | c :: cs => if c = '-' then (true, cs) else (false, s.data)
    | [] => (false, [])
  let intPart := rest.takeWhile Char.isDigit
  let afterInt := rest.drop intPart.length
  let fracPart :=
    match afterInt with
    | c :: cs => if c = '.' then cs.takeWhile Char.isDigit else []
    | [] => []
  if intPart = [] ∧ fracPart = [] then 0
  else
    let num : Int := (digitsToNat intPart * 10 ^ fracPart.length + digitsToNat fracPart : Nat)
    mkRat (if neg then -num else num) (10 ^ fracPart.length)

/-! ### Reason codes, outcomes and receipts (packages/shared/src/receipt.ts) -/

/-- Error taxonomy of the gateway (shared ReasonCode enum). -/
inductive ReasonCode where
  | OK
  | ROUTE_NOT_FOUND
  | RATE_LIMITED
  | REPLAY_DETECTED
  | INVALID_SIGNATURE
  | MANDATE_EXPIRED
  | ENDPOINT_NOT_ALLOWLISTED
  | MANDATE_BUDGET_EXCEEDED
  | MANDATE_CONFIRM_REQUIRED
  | INTENT_BUDGET_EXCEEDED
  | MERCHANT_NOT_MATCHED
  | INVALID_PAYMENT
  | AGENT_BLOCKED
  | REPUTATION_TOO_LOW
  | SSRF_BLOCKED
  | X402_UPSTREAM_BLOCKED
  | UPSTREAM_ERROR_NO_CHARGE
deriving DecidableEq, Repr

/-- Receipt outcome (shared Outcome enum). -/
inductive Outcome where
  | SUCCESS
  | DENIED
  | ERROR
  | REFUNDED
deriving DecidableEq, Repr

/-- The receipt record (shared Receipt interface), restricted to the
deterministic fields; see the file header for the elided fields. -/
structure Receipt where
  tool_id : String
  provider_id : String
  endpoint : String
  method : String
  price_usdc : String
  mandate_id : Option String
  mandate_verdict : String
  reason_code : ReasonCode
  request_hash : String
  response_hash : Option String
  outcome : Outcome
deriving DecidableEq, Repr

/-! ### Canonical request hash (packages/gateway/src/hash.ts) -/

/-- Characters that encodeURIComponent leaves unescaped:
A-Z a-z 0-9 - _ . ! ~ * quote ( ). -/
def isUnreservedURI (c : Char) : Bool :=
  c.isAlphanum || c = '-' || c = '_' || c = '.' || c = '!' || c = '~' ||
  c = '*' || c = Char.ofNat 39 || c = '(' || c = ')'

/-- Uppercase hexadecimal digit for a value below 16. -/
def hexUpperDigit (n : Nat) : Char :=
  if n < 10 then Char.ofNat (48 + n) else Char.ofNat (55 + n)

/-- Percent-encoding of one byte, e.g. %2F. -/
def percentByte (b : UInt8) : String :=
  ⟨['%', hexUpperDigit (b.toNat / 16), hexUpperDigit (b.toNat % 16)]⟩

/-- Model of JS encodeURIComponent: unreserved characters pass through,
every other character is replaced by the percent-encoding of its UTF-8
bytes. -/
def encodeURIComponent (s : String) : String :=
  s.data.foldl
    (fun acc c =>
      if isUnreservedURI c then acc.push c
      else acc ++ String.join (((String.singleton c).toUTF8.toList).map percentByte))
    ""

/-- Insertion of a string into a lexicographically sorted list. -/
def insertSorted (s : String) : List String → List String
  | [] => [s]
  | t :: ts => if s ≤ t then s :: t :: ts else t :: insertSorted s ts

/-- Lexicographic sort of a list of strings; models Array.prototype.sort
on the query keys (default string comparison). -/
def sortStrings (l : List String) : List String := l.foldr insertSorted []

/-- Argument record of canonicalString / requestHash (hash.ts). A query
object is modelled as an association list with distinct keys. -/
structure HashParts where
  method : String
  path : String
  query : Option (List (String × String))
  bodyHash : String
  price : String
  idempotencyKey : String
  timeWindow : String

/-- canonicalString from hash.ts: the pipe-joined canonical form
METHOD | path | sorted_query | body_hash | price | idempotency_key | time_window
where the query keys are sorted, then lowercased, and the values are
URI-escaped. -/
def canonicalString (p : HashParts) : String :=
  let sortedQuery :=
    match p.query with
    | some q =>
        String.intercalate "&"
          ((sortStrings (q.map Prod.fst)).map
            (fun k => strLower k ++ "=" ++ encodeURIComponent ((q.lookup k).getD "")))
    | none => ""
  String.intercalate "|"
    [strUpper p.method, p.path, sortedQuery, p.bodyHash, p.price, p.idempotencyKey, p.timeWindow]

/-- requestHash from hash.ts: keccak256 (modelled by H) of the canonical
string. -/
def requestHashF (H : String → String) (p : HashParts) : String :=
  H (canonicalString p)

/-- hashBytes from hash.ts: keccak256 (modelled by H) of the data. -/
def hashBytesF (H : String → String) (data : String) : String := H data

/-! ### Replay store (packages/gateway/src/replay.ts)

InMemoryReplayStore keeps a Map from fingerprint hash to the deletion
timer created by its most recent insert. insert always schedules a fresh
setTimeout that will unconditionally delete the key when it fires, and
replaces the map value without cancelling the previously scheduled timer,
so all previously scheduled timers stay pending. The model therefore
carries the live key set and every pending (key, fire-time) timer. -/

structure ReplayState where
  present : List String
  timers : List (String × Nat)
deriving DecidableEq, Repr

/-- The empty replay store. -/
def ReplayState.empty : ReplayState := ⟨[], []⟩

/-- Fires every timer that is due at time `now`: each due timer deletes its
key from the map; due timers are removed from the pending multiset. -/
def fireTimers (s : ReplayState) (now : Nat) : ReplayState :=
  { present := s.present.filter (fun h => ! s.timers.any (fun p => p.1 == h && p.2 ≤ now)),
    timers := s.timers.filter (fun p => ! (p.2 ≤ now)) }

/-- store.has(hash) observed at time `now`. -/
def hasAt (s : ReplayState) (now : Nat) (h : String) : Bool :=
  (fireTimers s now).present.contains h

/-- store.insert(hash, ttlMs) performed at time `now`: schedules deletion
at now + ttl and makes the key live (Map.set). -/
def insertAt (s : ReplayState) (now : Nat) (h : String) (ttl : Nat) : ReplayState :=
  let s' := fireTimers s now
  { present := if s'.present.contains h then s'.present else h :: s'.present,
    timers := (h, now + ttl) :: s'.timers }

/-- checkReplay from replay.ts performed at time `now`: returns true on a
hit; on a miss inserts the hash and returns false. -/
def checkReplayAt (s : ReplayState) (now : Nat) (h : String) (ttl : Nat) : Bool × ReplayState :=
  let s' := fireTimers s now
  if s'.present.contains h then (true, s')
  else (false, insertAt s now h ttl)

/-! ### Spend trackers (packages/gateway/src/ap2.ts) -/

/-- One entry of the daily spend map: running total and the UTC date it
belongs to. -/
structure SpendEntry where
  total : ℚ
  date : String
deriving DecidableEq, Repr

/-- SpendTracker.dailyTotals: a Map from mandate id to daily entry. -/
def SpendTracker := List (String × SpendEntry)

/-- Map.set: replace the binding in place, or append a new binding. -/
def setEntry (id : String) (e : SpendEntry) : SpendTracker → SpendTracker
  | [] => [(id, e)]
  | (k, v) :: rest => if k = id then (id, e) :: rest else (k, v) :: setEntry id e rest

/-- SpendTracker.getSpent: 0 unless an entry exists for the current UTC
date. -/
def getSpent (t : SpendTracker) (mandateId : String) (today : String) : ℚ :=
  match t.lookup mandateId with
  | some e => if e.date = today then e.total else 0
  | none => 0

/-- SpendTracker.addSpend: start a fresh entry on a new id or new date,
otherwise add to the running total. -/
def addSpend (t : SpendTracker) (mandateId : String) (amount : ℚ) (today : String) : SpendTracker :=
  match t.lookup mandateId with
  | some e =>
      if e.date = today then setEntry mandateId ⟨qAdd e.total amount, today⟩ t
      else setEntry mandateId ⟨amount, today⟩ t
  | none => setEntry mandateId ⟨amount, today⟩ t

/-- LifetimeSpendTracker.totals: a Map from intent mandate id to total. -/
def LifetimeTracker := List (String × ℚ)

/-- Map.set for the lifetime tracker. -/
def setLifetime (key : String) (v : ℚ) : LifetimeTracker → LifetimeTracker
  | [] => [(key, v)]
  | (k, w) :: rest => if k = key then (key, v) :: rest else (k, w) :: setLifetime key v rest

/-- LifetimeSpendTracker.getSpent. -/
def getLifetime (t : LifetimeTracker) (key : String) : ℚ :=
  (t.lookup key).getD 0

/-- LifetimeSpendTracker.addSpend. -/
def addLifetime (t : LifetimeTracker) (key : String) (amount : ℚ) : LifetimeTracker :=
  setLifetime key (qAdd (getLifetime t key) amount) t

/-! ### Mandates and verifiers (packages/shared/src/mandate.ts, ap2.ts) -/

/-- Kind A (bounded) mandate. -/
structure Mandate where
  mandate_id : String
  owner_pubkey : String
  expires_at : String
  max_spend_usdc_per_day : String
  allowlisted_tool_ids : List String
  require_user_confirm_for_price_over : Option String
  signature : String
deriving DecidableEq, Repr

/-- Request context for Kind A verification. -/
structure MandateRequestContext where
  tool_id : String
  price_usdc : String
  timestamp : String
deriving DecidableEq, Repr

/-- Verdict of a mandate verifier (the explanation string is elided). -/
structure MandateVerdict where
  approved : Bool
  reason_code : ReasonCode
deriving DecidableEq, Repr

/-- Budget of an intent mandate; amount is a JS number, modelled exactly. -/
structure IntentBudget where
  amount : ℚ
  currency : String
deriving DecidableEq, Repr

/-- Contents of a Kind B (intent) mandate. The optional constraints map
is absent in every execution considered here and is elided. -/
structure IntentMandateContents where
  natural_language_description : String
  budget : IntentBudget
  merchants : List String
  intent_expiry : String
  requires_refundability : Bool
deriving DecidableEq, Repr

/-- Kind B (intent) mandate envelope. -/
structure IntentMandate where
  contents : IntentMandateContents
  user_signature : String
  timestamp : String
  signer_address : String
deriving DecidableEq, Repr

/-- Request context for Kind B verification. -/
structure IntentMandateRequestContext where
  price_usdc : String
  timestamp : String
  gateway_domain : String
deriving DecidableEq, Repr

/-- intentMandateId from ap2.ts: "intent-" followed by the first 16 hex
characters of the signing payload hash. contentsHash models
intentMandateSigningPayload, i.e. keccak256 of the deterministically
sorted JSON serialization of the contents. -/
def intentMandateId (contentsHash : IntentMandateContents → String) (c : IntentMandateContents) : String :=
  "intent-" ++ strTake (strDrop (contentsHash c) 2) 16

/-- The confirmation-threshold condition of verifyMandate: JS truthiness
of the optional field (absent or empty string is falsy) conjoined with
the price comparison. -/
def confirmThresholdHit (m : Mandate) (price : ℚ) : Bool :=
  match m.require_user_confirm_for_price_over with
  | some thr => thr ≠ "" && price > parseFloatQ thr
  | none => false

/-- verifyMandate from ap2.ts (Kind A). sigOk models the outcome of
verifyMessage over the EIP-191 signature (false also covers a thrown
verification error), dateParse models new Date parsing. Returns the
verdict together with the tracker state after the call. -/
def verifyMandate (sigOk : Bool) (dateParse : String → Option Int)
    (m : Mandate) (ctx : MandateRequestContext) (tracker : SpendTracker)
    (today : String) : MandateVerdict × SpendTracker :=
  if !sigOk then (⟨false, ReasonCode.INVALID_SIGNATURE⟩, tracker)
  else if jsDateLt (dateParse m.expires_at) (dateParse ctx.timestamp) then
    (⟨false, ReasonCode.MANDATE_EXPIRED⟩, tracker)
  else if !(m.allowlisted_tool_ids.contains ctx.tool_id) then
    (⟨false, ReasonCode.ENDPOINT_NOT_ALLOWLISTED⟩, tracker)
  else
    let price := parseFloatQ ctx.price_usdc
    let spent := getSpent tracker m.mandate_id today
    let maxDaily := parseFloatQ m.max_spend_usdc_per_day
    if qAdd spent price > maxDaily then
      (⟨false, ReasonCode.MANDATE_BUDGET_EXCEEDED⟩, tracker)
    else if confirmThresholdHit m price then
      (⟨false, ReasonCode.MANDATE_CONFIRM_REQUIRED⟩, tracker)
    else
      (⟨true, ReasonCode.OK⟩, addSpend tracker m.mandate_id price today)

/-- verifyIntentMandate from ap2.ts (Kind B). sigOk and dateParse as in
verifyMandate; contentsHash models the intent signing payload hash. -/
def verifyIntentMandate (sigOk : Bool) (dateParse : String → Option Int)
    (contentsHash : IntentMandateContents → String)
    (m : IntentMandate) (ctx : IntentMandateRequestContext)
    (tracker : LifetimeTracker) : MandateVerdict × LifetimeTracker :=
  if !sigOk then (⟨false, ReasonCode.INVALID_SIGNATURE⟩, tracker)
  else if jsDateLt (dateParse m.contents.intent_expiry) (dateParse ctx.timestamp) then
    (⟨false, ReasonCode.MANDATE_EXPIRED⟩, tracker)
  else
    let domain := strLower ctx.gateway_domain
    if !(m.contents.merchants.any (fun mm => strLower mm == domain)) then
      (⟨false, ReasonCode.MERCHANT_NOT_MATCHED⟩, tracker)
    else
      let price := parseFloatQ ctx.price_usdc
      let mandateKey := intentMandateId contentsHash m.contents
      let spent := getLifetime tracker mandateKey
      if qAdd spent price > m.contents.budget.amount then
        (⟨false, ReasonCode.INTENT_BUDGET_EXCEEDED⟩, tracker)
      else
        (⟨true, ReasonCode.OK⟩, addLifetime tracker mandateKey price)

/-- resolveGatewayDomain from middleware/mandate.ts: a configured gateway
domain wins; otherwise the Host header (default "localhost") with a
trailing :port stripped. -/
def stripPort (host : String) : String :=
  let digitsRev := host.data.reverse.takeWhile Char.isDigit
  let beforeRev := host.data.reverse.drop digitsRev.length
  match beforeRev with
  | c :: rest => if c = ':' ∧ digitsRev ≠ [] then ⟨rest.reverse⟩ else host
  | [] => host

/-- resolveGatewayDomain from middleware/mandate.ts. -/
def resolveGatewayDomain (configGatewayDomain : Option String) (hostHeader : Option String) : String :=
  match configGatewayDomain with
  | some d => d
  | none => stripPort (hostHeader.getD "localhost")

/-! ### SSRF guard (packages/gateway/src/utils/ssrf.ts) -/

/-- Models the JS Number() coercion on the strings that arise from
splitting a hostname on dots: the empty string is 0, decimal numerals
(optionally negative) take their value, everything else is NaN (none). -/
def jsNumberOfString (s : String) : Option Int :=
  if s = "" then some 0
  else
    match s.data with
    | '-' :: rest =>
        if rest ≠ [] ∧ rest.all Char.isDigit then some (-(digitsToNat rest : Int)) else none
    | l => if l.all Char.isDigit then some (digitsToNat l : Int) else none

/-- isInRange from ssrf.ts: parse a dotted quad, reject malformed or
out-of-range octets, then compare the 32-bit values under the high
maskBits mask. The JS bitwise operations on 32-bit integers are modelled
on the natural number holding the same 32 bits. -/
def isInRange (ip : String) (b0 b1 b2 b3 maskBits : Nat) : Bool :=
  match (strSplitOnChar '.' ip).map jsNumberOfString with
  | [some p0, some p1, some p2, some p3] =>
      if 0 ≤ p0 ∧ p0 ≤ 255 ∧ 0 ≤ p1 ∧ p1 ≤ 255 ∧ 0 ≤ p2 ∧ p2 ≤ 255 ∧ 0 ≤ p3 ∧ p3 ≤ 255 then
        let ipNum := p0.toNat * 2 ^ 24 + p1.toNat * 2 ^ 16 + p2.toNat * 2 ^ 8 + p3.toNat
        let baseNum := b0 * 2 ^ 24 + b1 * 2 ^ 16 + b2 * 2 ^ 8 + b3
        let mask := 2 ^ 32 - 2 ^ (32 - maskBits)
        Nat.land ipNum mask == Nat.land baseNum mask
      else false
  | _ => false

/-- The textual IPv4 private range test list of ssrf.ts. -/
def privateRangesV4 : List String := ["127.", "10.", "0.", "169.254."]

/-- Models replace with the anchored bracket pattern: drops one leading
opening bracket and one trailing closing bracket. -/
def stripBrackets (s : String) : String :=
  let s1 := if strStartsWith s "[" then strDrop s 1 else s
  if strEndsWith s1 "]" then strDropRight s1 1 else s1

/-- isPrivateOrReserved from ssrf.ts. -/
def isPrivateOrReserved (hostname : String) : Bool :=
  if hostname = "localhost" || hostname = "0.0.0.0" then true
  else if hostname = "::1" || hostname = "[::]" then true
  else
    let lower := stripBrackets (strLower hostname)
    if strStartsWith lower "fc" || strStartsWith lower "fd" then true
    else if strStartsWith lower "fe80" then true
    else if privateRangesV4.any (fun p => strStartsWith hostname p) then true
    else if isInRange hostname 172 16 0 0 12 then true
    else if isInRange hostname 192 168 0 0 16 then true
    else false

/-- assertNotSSRF from ssrf.ts, with URL parsing treated as an oracle:
the argument is the parsed hostname, none when the URL constructor
throws. The result is true exactly when SSRFError is thrown. -/
def assertNotSSRFThrows (parsedHostname : Option String) : Bool :=
  match parsedHostname with
  | none => true
  | some h => isPrivateOrReserved h

/-- Hexadecimal value of a character, none for non-hex characters. -/
def hexVal (c : Char) : Option Nat :=
  if c.isDigit then some (c.toNat - 48)
  else if 'a' ≤ c ∧ c ≤ 'f' then some (c.toNat - 87)
  else if 'A' ≤ c ∧ c ≤ 'F' then some (c.toNat - 55)
  else none

/-- Value of a list of hexadecimal digit characters. -/
def hexDigitsToNat (l : List Char) : Nat :=
  l.foldl (fun acc c => acc * 16 + ((hexVal c).getD 0)) 0

/-- Leading 16-bit group of an IPv6 textual literal: the value of the hex
digits before the first colon, when there is at least one digit, at most
four, and a colon follows. -/
def leadingHexGroup (s : String) : Option Nat :=
  let digits := s.data.takeWhile (fun c => (hexVal c).isSome)
  let rest := s.data.drop digits.length
  if digits ≠ [] ∧ digits.length ≤ 4 ∧ rest.head? = some ':' then
    some (hexDigitsToNat digits)
  else none

/-- Follows the words of the spec: an IPv6 literal lies in fe80::/10
exactly when its leading group lies between fe80 and febf (first ten bits
1111111010). -/
def specInFe80Slash10 (hostname : String) : Bool :=
  match leadingHexGroup (stripBrackets (strLower hostname)) with
  | some g => 0xfe80 ≤ g ∧ g ≤ 0xfebf
  | none => false

/-! ### Pipeline (server.ts createApp with middleware/idempotency.ts and
middleware/mandate.ts) -/

/-- Result of matchRule for the purposes of the pipeline: the matched
rule data that createApp stores on the request. -/
structure RouteMatch where
  tool_id : String
  provider_id : String
  price : String
deriving DecidableEq, Repr

/-- Decoding state of the X-Mandate header: absent, undecodable
(base64/JSON error), or decoded to a Kind A mandate object (the wiring
of createApp passes every decoded object to verifyMandate). -/
inductive MandateHeader where
  | absent
  | malformed
  | valid (m : Mandate)
deriving DecidableEq, Repr

/-- An inbound /api/* request, as the pipeline observes it. query is
carried by the HTTP request but never read by the idempotency stage;
bodyStr is the JSON serialization of the parsed body, none when there is
no body. -/
structure GatewayRequest where
  method : String
  path : String
  query : List (String × String)
  idempotencyKey : Option String
  mandateHeader : MandateHeader
  bodyStr : Option String
deriving Repr

/-- Environment of one pipeline run: the oracles and ambient values that
the stages read. upstream is the outcome of forwardRequest: an error
message when fetch rejects, otherwise the upstream status together with
the JSON serialization of the response data. -/
structure PipelineEnv where
  H : String → String
  dateParse : String → Option Int
  route : Option RouteMatch
  sigOk : Bool
  nowMs : Nat
  today : String
  nowIso : String
  replayTtlMs : Nat
  upstream : Except String (Nat × String)

/-- The stage at which the run produced its response. -/
inductive Stage where
  | routeNotFound
  | replayHit
  | malformedMandate
  | mandateDenied
  | upstreamOk
  | upstreamErr
deriving DecidableEq, Repr

/-- Observable result of one pipeline run: HTTP status, the receipts
appended to the receipt store, the receipt sent as the JSON response
body (if any), the receipt sent base64 in the X-Receipt header (if any),
and the replay and spend states after the run. -/
structure PipelineResult where
  stage : Stage
  status : Nat
  stored : List Receipt
  bodyReceipt : Option Receipt
  headerReceipt : Option Receipt
  replay : ReplayState
  spend : SpendTracker

/-- The fingerprint computed by createIdempotencyMiddleware: requestHash
over method, path, body hash, route price and key — the query is not
passed. -/
def idempotencyFingerprint (H : String → String) (replayTtlMs nowMs : Nat)
    (routePrice : String) (req : GatewayRequest) (key : String) : String :=
  let bodyStr := req.bodyStr.getD ""
  let bodyHash := hashBytesF H bodyStr
  let timeWindow := Nat.repr (nowMs / replayTtlMs)
  requestHashF H
    { method := req.method, path := req.path, query := none, bodyHash := bodyHash,
      price := orDefault routePrice "0", idempotencyKey := key, timeWindow := timeWindow }

/-- The DENIED receipt of the replay branch of
createIdempotencyMiddleware. -/
def replayReceipt (mr : RouteMatch) (req : GatewayRequest) (hash : String) : Receipt :=
  { tool_id := orDefault mr.tool_id "unknown", provider_id := orDefault mr.provider_id "unknown",
    endpoint := req.path, method := req.method, price_usdc := "0.00", mandate_id := none,
    mandate_verdict := "SKIPPED", reason_code := ReasonCode.REPLAY_DETECTED,
    request_hash := hash, response_hash := none, outcome := Outcome.DENIED }

/-- The DENIED receipt of the route-not-found branch of createApp. -/
def routeNotFoundReceipt (req : GatewayRequest) : Receipt :=
  { tool_id := "unknown", provider_id := "unknown", endpoint := req.path, method := req.method,
    price_usdc := "0.00", mandate_id := none, mandate_verdict := "SKIPPED",
    reason_code := ReasonCode.ROUTE_NOT_FOUND, request_hash := "", response_hash := none,
    outcome := Outcome.DENIED }

/-- The DENIED receipt of the denial branch of createMandateMiddleware. -/
def mandateDeniedReceipt (mr : RouteMatch) (req : GatewayRequest) (m : Mandate)
    (reason : ReasonCode) (hash : Option String) : Receipt :=
  { tool_id := orDefault mr.tool_id "unknown", provider_id := orDefault mr.provider_id "unknown",
    endpoint := req.path, method := req.method, price_usdc := orDefault mr.price "0",
    mandate_id := some m.mandate_id, mandate_verdict := "DENIED", reason_code := reason,
    request_hash := hash.getD "", response_hash := none, outcome := Outcome.DENIED }

/-- The SUCCESS receipt of the proxy branch of createApp. -/
def successReceipt (env : PipelineEnv) (mr : RouteMatch) (req : GatewayRequest)
    (verdictTag : String) (mandateId : Option String) (hash : Option String)
    (data : String) : Receipt :=
  { tool_id := mr.tool_id, provider_id := mr.provider_id, endpoint := req.path,
    method := req.method, price_usdc := mr.price, mandate_id := mandateId,
    mandate_verdict := orDefault verdictTag "SKIPPED", reason_code := ReasonCode.OK,
    request_hash := hash.getD "", response_hash := some (hashBytesF env.H data),
    outcome := Outcome.SUCCESS }

/-- The ERROR receipt of the catch branch of createApp. -/
def upstreamErrorReceipt (mr : RouteMatch) (req : GatewayRequest)
    (verdictTag : String) (mandateId : Option String) (hash : Option String) : Receipt :=
  { tool_id := mr.tool_id, provider_id := mr.provider_id, endpoint := req.path,
    method := req.method, price_usdc := "0.00", mandate_id := mandateId,
    mandate_verdict := orDefault verdictTag "SKIPPED", reason_code := ReasonCode.UPSTREAM_ERROR_NO_CHARGE,
    request_hash := hash.getD "", response_hash := none, outcome := Outcome.ERROR }

/-- Stages 4 and 5 of createApp: the payment middleware is a pass-through,
then the request is proxied and a SUCCESS or upstream-error receipt is
produced and stored. -/
def proxyStage (env : PipelineEnv) (mr : RouteMatch) (req : GatewayRequest)
    (hash : Option String) (verdictTag : String) (mandateId : Option String)
    (rs : ReplayState) (sp : SpendTracker) : PipelineResult :=
  match env.upstream with
  | Except.ok (st, data) =>
      let r := successReceipt env mr req verdictTag mandateId hash data
      { stage := Stage.upstreamOk, status := st, stored := [r], bodyReceipt := none,
        headerReceipt := some r, replay := rs, spend := sp }
  | Except.error _ =>
      let r := upstreamErrorReceipt mr req verdictTag mandateId hash
      { stage := Stage.upstreamErr, status := 502, stored := [r], bodyReceipt := some r,
        headerReceipt := none, replay := rs, spend := sp }

/-- Stage 3 of createApp: createMandateMiddleware (the Kind A wiring of
server.ts). -/
def mandateStage (env : PipelineEnv) (mr : RouteMatch) (req : GatewayRequest)
    (hash : Option String) (rs : ReplayState) (sp : SpendTracker) : PipelineResult :=
  match req.mandateHeader with
  | MandateHeader.absent => proxyStage env mr req hash "SKIPPED" none rs sp
  | MandateHeader.malformed =>
      { stage := Stage.malformedMandate, status := 400, stored := [], bodyReceipt := none,
        headerReceipt := none, replay := rs, spend := sp }
  | MandateHeader.valid m =>
      let ctx : MandateRequestContext :=
        { tool_id := orDefault mr.tool_id "unknown", price_usdc := orDefault mr.price "0",
          timestamp := env.nowIso }
      let vs := verifyMandate env.sigOk env.dateParse m ctx sp env.today
      if vs.1.approved then proxyStage env mr req hash "APPROVED" (some m.mandate_id) rs vs.2
      else
        { stage := Stage.mandateDenied, status := 403,
          stored := [],
          bodyReceipt := some (mandateDeniedReceipt mr req m vs.1.reason_code hash),
          headerReceipt := none, replay := rs, spend := vs.2 }

/-- The /api/* pipeline of createApp: route match, idempotency, mandate,
payment pass-through, proxy. -/
def runPipeline (env : PipelineEnv) (req : GatewayRequest)
    (rs : ReplayState) (sp : SpendTracker) : PipelineResult :=
  match env.route with
  | none =>
      let r := routeNotFoundReceipt req
      { stage := Stage.routeNotFound, status := 404, stored := [r], bodyReceipt := some r,
        headerReceipt := none, replay := rs, spend := sp }
  | some mr =>
      match req.idempotencyKey with
      | none => mandateStage env mr req none rs sp
      | some key =>
          let fp := idempotencyFingerprint env.H env.replayTtlMs env.nowMs mr.price req key
          let cr := checkReplayAt rs env.nowMs fp env.replayTtlMs
          if cr.1 then
            { stage := Stage.replayHit, status := 409, stored := [],
              bodyReceipt := some (replayReceipt mr req fp), headerReceipt := none,
              replay := cr.2, spend := sp }
          else mandateStage env mr req (some fp) cr.2 sp

/-! ## Helper lemmas -/

theorem jsDateLt_eq_true_iff (a b : Option Int) :
    jsDateLt a b = true ↔ ∃ x y, a = some x ∧ b = some y ∧ x < y := by
  cases a <;> cases b <;> simp [jsDateLt]

theorem strContains_iff_mem (l : List String) (a : String) :
    l.contains a = true ↔ a ∈ l := by
  simp

/-! ## Claim C10: expiry semantics of both mandate kinds -/

/-- C10: for both mandate kinds the expiry check denies with
MANDATE_EXPIRED only when the parsed expiry is strictly earlier than the
parsed verification timestamp, and an expiry string that does not parse
(dateParse gives none, the Invalid Date case) is treated as not expired,
so an otherwise valid mandate with a malformed expiry string is
approved. -/
theorem C10_expiry_semantics (sigOk : Bool) (dp : String → Option Int)
    (ch : IntentMandateContents → String)
    (m : Mandate) (ctx : MandateRequestContext) (sp : SpendTracker) (today : String)
    (im : IntentMandate) (ictx : IntentMandateRequestContext) (lt : LifetimeTracker) :
    ((verifyMandate sigOk dp m ctx sp today).1.reason_code = ReasonCode.MANDATE_EXPIRED →
      ∃ e t, dp m.expires_at = some e ∧ dp ctx.timestamp = some t ∧ e < t)
    ∧ (sigOk = true → dp m.expires_at = none →
        m.allowlisted_tool_ids.contains ctx.tool_id = true →
        qAdd (getSpent sp m.mandate_id today) (parseFloatQ ctx.price_usdc)
            ≤ parseFloatQ m.max_spend_usdc_per_day →
        confirmThresholdHit m (parseFloatQ ctx.price_usdc) = false →
        (verifyMandate sigOk dp m ctx sp today).1.approved = true)
    ∧ ((verifyIntentMandate sigOk dp ch im ictx lt).1.reason_code = ReasonCode.MANDATE_EXPIRED →
      ∃ e t, dp im.contents.intent_expiry = some e ∧ dp ictx.timestamp = some t ∧ e < t)
    ∧ (sigOk = true → dp im.contents.intent_expiry = none →
        (im.contents.merchants.any (fun mm => strLower mm == strLower ictx.gateway_domain)) = true →
        qAdd (getLifetime lt (intentMandateId ch im.contents)) (parseFloatQ ictx.price_usdc)
            ≤ im.contents.budget.amount →
        (verifyIntentMandate sigOk dp ch im ictx lt).1.approved = true) := by
  refine ⟨?_, ?_, ?_, ?_⟩
  · intro h
    by_cases hs : sigOk
    · by_cases hd : jsDateLt (dp m.expires_at) (dp ctx.timestamp)
      · exact (jsDateLt_eq_true_iff _ _).mp hd
      · exfalso
        revert h
        simp only [verifyMandate, hs, hd, Bool.not_true, Bool.false_eq_true, if_false]
        split_ifs <;> simp
    · simp [verifyMandate, hs] at h
  · intro hs hnone hallow hbudget hconf
    subst hs
    have hd : jsDateLt (dp m.expires_at) (dp ctx.timestamp) = false := by
      rw [hnone]; rfl
    simp only [verifyMandate, hd, hallow, Bool.not_true, Bool.false_eq_true, if_false,
      Bool.not_false, if_true, hconf]
    rw [if_neg (by exact not_lt.mpr hbudget)]
  · intro h
    by_cases hs : sigOk
    · by_cases hd : jsDateLt (dp im.contents.intent_expiry) (dp ictx.timestamp)
      · exact (jsDateLt_eq_true_iff _ _).mp hd
      · exfalso
        revert h
        simp only [verifyIntentMandate, hs, hd, Bool.not_true, Bool.false_eq_true, if_false]
        split_ifs <;> simp
    · simp [verifyIntentMandate, hs] at h
  · intro hs hnone hmatch hbudget
    subst hs
    have hd : jsDateLt (dp im.contents.intent_expiry) (dp ictx.timestamp) = false := by
      rw [hnone]; rfl
    simp only [verifyIntentMandate, hd, hmatch, Bool.not_true, Bool.false_eq_true, if_false,
      Bool.not_false, if_true]
    rw [if_neg (by exact not_lt.mpr hbudget)]

/-- Witness for C10: a signed Kind A mandate whose expires_at does not
parse as a date is approved when tool, budget and threshold checks pass. -/
theorem C10_expiry_semantics_witness :
    (verifyMandate true (fun _ => none)
      { mandate_id := "m-1", owner_pubkey := "0xowner", expires_at := "not-a-date",
        max_spend_usdc_per_day := "1.00", allowlisted_tool_ids := ["quote"],
        require_user_confirm_for_price_over := none, signature := "0xsig" }
      { tool_id := "quote", price_usdc := "0.01", timestamp := "2026-10-11T00:00:00.000Z" }
      [] "2026-10-11").1.approved = true :=
  (C10_expiry_semantics true (fun _ => none) (fun _ => "0xhash")
      { mandate_id := "m-1", owner_pubkey := "0xowner", expires_at := "not-a-date",
        max_spend_usdc_per_day := "1.00", allowlisted_tool_ids := ["quote"],
        require_user_confirm_for_price_over := none, signature := "0xsig" }
      { tool_id := "quote", price_usdc := "0.01", timestamp := "2026-10-11T00:00:00.000Z" }
      [] "2026-10-11"
      { contents := { natural_language_description := "d", budget := ⟨1, "USD"⟩,
                      merchants := ["localhost"], intent_expiry := "e",
                      requires_refundability := false },
        user_signature := "0xs", timestamp := "t", signer_address := "0xa" }
      { price_usdc := "0.01", timestamp := "t", gateway_domain := "localhost" }
      []).2.1 rfl rfl (by decide) (by decide) (by decide)

/-! ## Claim C4: tool allowlist check of Kind A mandates -/

/-- C4 counterexample: a Kind A mandate that passes the signature and
expiry checks and whose allowlisted_tool_ids is exactly the reserved
wildcard list is nevertheless denied with ENDPOINT_NOT_ALLOWLISTED for
tool quote: verifyMandate gives the wildcard no special meaning. -/
theorem C4_wildcard_counterexample :
    (verifyMandate true (fun _ => some 0)
      { mandate_id := "m-wild", owner_pubkey := "0xowner",
        expires_at := "2099-01-01T00:00:00.000Z", max_spend_usdc_per_day := "1.00",
        allowlisted_tool_ids := ["*"], require_user_confirm_for_price_over := none,
        signature := "0xsig" }
      { tool_id := "quote", price_usdc := "0.01", timestamp := "2026-10-11T00:00:00.000Z" }
      [] "2026-10-11").1
      = { approved := false, reason_code := ReasonCode.ENDPOINT_NOT_ALLOWLISTED } := by
  decide

/-- C4 (amended): for a Kind A mandate that passes the signature and
expiry checks, verifyMandate denies with ENDPOINT_NOT_ALLOWLISTED exactly
when the requested tool_id is not literally an element of
allowlisted_tool_ids; the string "*" is an ordinary entry with no
wildcard meaning. -/
theorem C4_allowlist_exact (dp : String → Option Int) (m : Mandate)
    (ctx : MandateRequestContext) (sp : SpendTracker) (today : String)
    (hexp : jsDateLt (dp m.expires_at) (dp ctx.timestamp) = false) :
    (verifyMandate true dp m ctx sp today).1.reason_code = ReasonCode.ENDPOINT_NOT_ALLOWLISTED
      ↔ ctx.tool_id ∉ m.allowlisted_tool_ids := by
  by_cases hc : m.allowlisted_tool_ids.contains ctx.tool_id
  · have hmem : ctx.tool_id ∈ m.allowlisted_tool_ids := (strContains_iff_mem _ _).mp hc
    simp only [verifyMandate, hexp, hc, Bool.not_true, Bool.false_eq_true, if_false,
      Bool.not_false, if_true]
    split_ifs <;> simp [hmem]
  · have hmem : ctx.tool_id ∉ m.allowlisted_tool_ids := by
      intro hm
      exact hc ((strContains_iff_mem _ _).mpr hm)
    simp [verifyMandate, hexp, hc, hmem]

/-- Witness for C4: a mandate allowlisting only quote denies tool
premium-brief with ENDPOINT_NOT_ALLOWLISTED. -/
theorem C4_allowlist_exact_witness :
    (verifyMandate true (fun _ => some 0)
      { mandate_id := "m-1", owner_pubkey := "0xowner",
        expires_at := "2099-01-01T00:00:00.000Z", max_spend_usdc_per_day := "1.00",
        allowlisted_tool_ids := ["quote"], require_user_confirm_for_price_over := none,
        signature := "0xsig" }
      { tool_id := "premium-brief", price_usdc := "0.01",
        timestamp := "2026-10-11T00:00:00.000Z" }
      [] "2026-10-11").1.reason_code = ReasonCode.ENDPOINT_NOT_ALLOWLISTED :=
  (C4_allowlist_exact (fun _ => some 0)
      { mandate_id := "m-1", owner_pubkey := "0xowner",
        expires_at := "2099-01-01T00:00:00.000Z", max_spend_usdc_per_day := "1.00",
        allowlisted_tool_ids := ["quote"], require_user_confirm_for_price_over := none,
        signature := "0xsig" }
      { tool_id := "premium-brief", price_usdc := "0.01",
        timestamp := "2026-10-11T00:00:00.000Z" }
      [] "2026-10-11" (by decide)).mpr (by decide)

/-! ## Claim C7: daily budget check of Kind A mandates -/

/-- C7: for a Kind A mandate that passes the signature, expiry and
allowlist checks, verifyMandate denies with MANDATE_BUDGET_EXCEEDED
exactly when the daily spend already recorded for its mandate_id plus the
route price strictly exceeds max_spend_usdc_per_day, and on such a denial
the daily ledger is left unchanged. -/
theorem C7_daily_budget_exact (dp : String → Option Int) (m : Mandate)
    (ctx : MandateRequestContext) (sp : SpendTracker) (today : String)
    (hexp : jsDateLt (dp m.expires_at) (dp ctx.timestamp) = false)
    (hallow : m.allowlisted_tool_ids.contains ctx.tool_id = true) :
    ((verifyMandate true dp m ctx sp today).1.reason_code = ReasonCode.MANDATE_BUDGET_EXCEEDED
      ↔ getSpent sp m.mandate_id today + parseFloatQ ctx.price_usdc
          > parseFloatQ m.max_spend_usdc_per_day)
    ∧ (getSpent sp m.mandate_id today + parseFloatQ ctx.price_usdc
          > parseFloatQ m.max_spend_usdc_per_day
        → (verifyMandate true dp m ctx sp today).2 = sp) := by
  have hq : qAdd (getSpent sp m.mandate_id today) (parseFloatQ ctx.price_usdc)
      = getSpent sp m.mandate_id today + parseFloatQ ctx.price_usdc := qAdd_eq _ _
  have hmem : ctx.tool_id ∈ m.allowlisted_tool_ids := (strContains_iff_mem _ _).mp hallow
  constructor
  · by_cases hb : getSpent sp m.mandate_id today + parseFloatQ ctx.price_usdc
        > parseFloatQ m.max_spend_usdc_per_day
    · simp [verifyMandate, hexp, hallow, hmem, hq, hb]
    · simp only [verifyMandate, hexp, hallow, Bool.not_true, Bool.false_eq_true, if_false,
        Bool.not_false, if_true, hq]
      rw [if_neg hb]
      split_ifs <;> simp [hb, hmem]
  · intro hb
    simp [verifyMandate, hexp, hallow, hmem, hq, hb]

/-- Witness for C7: with a 0.05 daily limit, after one approved 0.03 call
a second 0.03 call is denied with MANDATE_BUDGET_EXCEEDED and the ledger
still records exactly the first 0.03. -/
theorem C7_daily_budget_exact_witness :
    ((verifyMandate true (fun _ => some 0)
      { mandate_id := "m-1", owner_pubkey := "0xowner",
        expires_at := "2099-01-01T00:00:00.000Z", max_spend_usdc_per_day := "0.05",
        allowlisted_tool_ids := ["quote"], require_user_confirm_for_price_over := none,
        signature := "0xsig" }
      { tool_id := "quote", price_usdc := "0.03", timestamp := "2026-10-11T00:00:00.000Z" }
      (addSpend [] "m-1" (parseFloatQ "0.03") "2026-10-11") "2026-10-11").1.reason_code
        = ReasonCode.MANDATE_BUDGET_EXCEEDED)
    ∧ ((verifyMandate true (fun _ => some 0)
      { mandate_id := "m-1", owner_pubkey := "0xowner",
        expires_at := "2099-01-01T00:00:00.000Z", max_spend_usdc_per_day := "0.05",
        allowlisted_tool_ids := ["quote"], require_user_confirm_for_price_over := none,
        signature := "0xsig" }
      { tool_id := "quote", price_usdc := "0.03", timestamp := "2026-10-11T00:00:00.000Z" }
      (addSpend [] "m-1" (parseFloatQ "0.03") "2026-10-11") "2026-10-11").2
        = addSpend [] "m-1" (parseFloatQ "0.03") "2026-10-11") := by
  have hb : getSpent (addSpend [] "m-1" (parseFloatQ "0.03") "2026-10-11") "m-1" "2026-10-11"
      + parseFloatQ "0.03" > parseFloatQ "0.05" := by
    have h1 : getSpent (addSpend [] "m-1" (parseFloatQ "0.03") "2026-10-11") "m-1" "2026-10-11"
        = mkRat 3 100 := by decide
    have h2 : parseFloatQ "0.03" = mkRat 3 100 := by decide
    have h3 : parseFloatQ "0.05" = mkRat 5 100 := by decide
    rw [h1, h2, h3, Rat.mkRat_eq_div, Rat.mkRat_eq_div]
    norm_num
  have h := C7_daily_budget_exact (fun _ => some 0)
      { mandate_id := "m-1", owner_pubkey := "0xowner",
        expires_at := "2099-01-01T00:00:00.000Z", max_spend_usdc_per_day := "0.05",
        allowlisted_tool_ids := ["quote"], require_user_confirm_for_price_over := none,
        signature := "0xsig" }
      { tool_id := "quote", price_usdc := "0.03", timestamp := "2026-10-11T00:00:00.000Z" }
      (addSpend [] "m-1" (parseFloatQ "0.03") "2026-10-11") "2026-10-11"
      (by decide) (by decide)
  exact ⟨h.1.mpr hb, h.2 hb⟩

/-! ## Claim C5: merchant matching of Kind B mandates -/

/-- C5 counterexample: an intent mandate that passes the signature and
expiry checks and whose merchants list is exactly the wildcard list is
denied with MERCHANT_NOT_MATCHED for the gateway domain localhost (here
resolved by resolveGatewayDomain from a Host header with a port):
verifyIntentMandate gives "*" no special meaning. -/
theorem C5_wildcard_counterexample :
    (verifyIntentMandate true (fun _ => some 0) (fun _ => "0xhash")
      { contents := { natural_language_description := "d", budget := ⟨1, "USD"⟩,
                      merchants := ["*"], intent_expiry := "2099-01-01T00:00:00.000Z",
                      requires_refundability := false },
        user_signature := "0xs", timestamp := "t", signer_address := "0xa" }
      { price_usdc := "0.01", timestamp := "2026-10-11T00:00:00.000Z",
        gateway_domain := resolveGatewayDomain none (some "localhost:4402") }
      []).1
      = { approved := false, reason_code := ReasonCode.MERCHANT_NOT_MATCHED } := by
  decide

/-- C5 (amended): for an intent mandate that passes the signature and
expiry checks, verifyIntentMandate denies with MERCHANT_NOT_MATCHED
exactly when no entry of merchants equals the gateway domain
case-insensitively (the domain resolved from the Host header with any
trailing port stripped); an entry "*" matches only a gateway domain that
is literally "*". On such a denial the lifetime ledger is unchanged. -/
theorem C5_merchant_exact (dp : String → Option Int)
    (ch : IntentMandateContents → String) (im : IntentMandate)
    (ictx : IntentMandateRequestContext) (lt : LifetimeTracker)
    (hexp : jsDateLt (dp im.contents.intent_expiry) (dp ictx.timestamp) = false) :
    ((verifyIntentMandate true dp ch im ictx lt).1.reason_code = ReasonCode.MERCHANT_NOT_MATCHED
      ↔ ∀ mm ∈ im.contents.merchants, strLower mm ≠ strLower ictx.gateway_domain)
    ∧ ((verifyIntentMandate true dp ch im ictx lt).1.reason_code
          = ReasonCode.MERCHANT_NOT_MATCHED
        → (verifyIntentMandate true dp ch im ictx lt).2 = lt) := by
  by_cases hm : im.contents.merchants.any (fun mm => strLower mm == strLower ictx.gateway_domain)
  · have hex : ∃ mm ∈ im.contents.merchants, strLower mm = strLower ictx.gateway_domain := by
      simpa using hm
    have hrhs : ¬ (∀ mm ∈ im.contents.merchants, strLower mm ≠ strLower ictx.gateway_domain) := by
      obtain ⟨mm, hmem, heq⟩ := hex
      exact fun hall => hall mm hmem heq
    constructor
    · simp only [verifyIntentMandate, hexp, hm, Bool.not_true, Bool.false_eq_true, if_false,
        Bool.not_false, if_true]
      split_ifs <;> simp [hrhs]
    · intro hr
      exfalso
      revert hr
      simp only [verifyIntentMandate, hexp, hm, Bool.not_true, Bool.false_eq_true, if_false,
        Bool.not_false, if_true]
      split_ifs <;> simp
  · have hall : ∀ mm ∈ im.contents.merchants, strLower mm ≠ strLower ictx.gateway_domain := by
      simpa using hm
    constructor
    · simp only [verifyIntentMandate, hexp, hm, Bool.not_true, Bool.false_eq_true, if_false,
        Bool.not_false, if_true]
      exact iff_of_true trivial hall
    · intro _
      simp [verifyIntentMandate, hexp, hm]

/-- Witness for C5: merchants example.com with gateway domain localhost
is denied with MERCHANT_NOT_MATCHED and the lifetime ledger stays empty. -/
theorem C5_merchant_exact_witness :
    ((verifyIntentMandate true (fun _ => some 0) (fun _ => "0xhash")
      { contents := { natural_language_description := "d", budget := ⟨1, "USD"⟩,
                      merchants := ["example.com"], intent_expiry := "2099-01-01T00:00:00.000Z",
                      requires_refundability := false },
        user_signature := "0xs", timestamp := "t", signer_address := "0xa" }
      { price_usdc := "0.01", timestamp := "2026-10-11T00:00:00.000Z",
        gateway_domain := "localhost" }
      []).1.reason_code = ReasonCode.MERCHANT_NOT_MATCHED)
    ∧ ((verifyIntentMandate true (fun _ => some 0) (fun _ => "0xhash")
      { contents := { natural_language_description := "d", budget := ⟨1, "USD"⟩,
                      merchants := ["example.com"], intent_expiry := "2099-01-01T00:00:00.000Z",
                      requires_refundability := false },
        user_signature := "0xs", timestamp := "t", signer_address := "0xa" }
      { price_usdc := "0.01", timestamp := "2026-10-11T00:00:00.000Z",
        gateway_domain := "localhost" }
      []).2 = []) := by
  have h := C5_merchant_exact (fun _ => some 0) (fun _ => "0xhash")
      { contents := { natural_language_description := "d", budget := ⟨1, "USD"⟩,
                      merchants := ["example.com"], intent_expiry := "2099-01-01T00:00:00.000Z",
                      requires_refundability := false },
        user_signature := "0xs", timestamp := "t", signer_address := "0xa" }
      { price_usdc := "0.01", timestamp := "2026-10-11T00:00:00.000Z",
        gateway_domain := "localhost" }
      [] (by decide)
  have hr := h.1.mpr (by decide)
  exact ⟨hr, h.2 hr⟩

/-! ## Claim C6: replay store contract -/

theorem strContains_eq_false_iff (l : List String) (a : String) :
    l.contains a = false ↔ a ∉ l := by
  constructor
  · intro hc hm
    rw [(strContains_iff_mem l a).mpr hm] at hc
    cases hc
  · intro hm
    cases hc : l.contains a
    · rfl
    · exact absurd ((strContains_iff_mem l a).mp hc) hm

/-- Membership in the live keys after firing the due timers. -/
theorem mem_fireTimers_present (s : ReplayState) (t : Nat) (g : String) :
    g ∈ (fireTimers s t).present
      ↔ g ∈ s.present ∧ ∀ p ∈ s.timers, p.1 = g → t < p.2 := by
  simp only [fireTimers, List.mem_filter, Bool.not_eq_true', List.any_eq_false,
    Bool.and_eq_true, beq_iff_eq, decide_eq_true_eq, not_and, not_le]

/-- Membership in the pending timers after firing the due timers. -/
theorem mem_fireTimers_timers (s : ReplayState) (t : Nat) (p : String × Nat) :
    p ∈ (fireTimers s t).timers ↔ p ∈ s.timers ∧ t < p.2 := by
  simp [fireTimers, List.mem_filter]

/-- Characterization of store.has at a point in time: the key is live and
none of its pending deletion timers is due. -/
theorem hasAt_iff (s : ReplayState) (now : Nat) (h : String) :
    hasAt s now h = true
      ↔ h ∈ s.present ∧ ∀ p ∈ s.timers, p.1 = h → now < p.2 := by
  rw [hasAt, List.contains, List.elem_iff]
  exact mem_fireTimers_present s now h

/-- Shape of the first checkReplay of a fresh fingerprint. -/
theorem checkReplayAt_fresh (s : ReplayState) (t : Nat) (f : String) (ttl : Nat)
    (hp : f ∉ s.present) :
    checkReplayAt s t f ttl
      = (false, ⟨f :: (fireTimers s t).present, (f, t + ttl) :: (fireTimers s t).timers⟩) := by
  have hp' : f ∉ (fireTimers s t).present := by
    intro hm
    exact hp ((mem_fireTimers_present s t f).mp hm).1
  simp [checkReplayAt, insertAt, hp']

/-- C6: on a store that has never seen fingerprint f, the first
checkReplay returns false and inserts f (has becomes true immediately);
every further checkReplay of f strictly within the ttl window returns
true; and re-inserting the already-present fingerprint with the same ttl
(remember) is idempotent: it changes the observable has behaviour of no
fingerprint at any later time. -/
theorem C6_replay_contract (s : ReplayState) (f : String) (ttl t1 t2 t3 : Nat)
    (hp : f ∉ s.present) (ht : ∀ p ∈ s.timers, p.1 ≠ f)
    (httl : 0 < ttl) (h12 : t1 ≤ t2) (h2ttl : t2 < t1 + ttl) (h23 : t2 ≤ t3) :
    (checkReplayAt s t1 f ttl).1 = false
    ∧ hasAt (checkReplayAt s t1 f ttl).2 t1 f = true
    ∧ (checkReplayAt (checkReplayAt s t1 f ttl).2 t2 f ttl).1 = true
    ∧ ∀ g, hasAt (insertAt (checkReplayAt s t1 f ttl).2 t2 f ttl) t3 g
        = hasAt (checkReplayAt s t1 f ttl).2 t3 g := by
  have hshape := checkReplayAt_fresh s t1 f ttl hp
  set F1 := fireTimers s t1 with hF1
  have hS1 : (checkReplayAt s t1 f ttl).2
      = ⟨f :: F1.present, (f, t1 + ttl) :: F1.timers⟩ := by rw [hshape]
  have hF1timers : ∀ p ∈ F1.timers, p.1 ≠ f := by
    intro p hpmem
    exact ht p ((mem_fireTimers_timers s t1 p).mp hpmem).1
  refine ⟨by rw [hshape], ?_, ?_, ?_⟩
  · rw [hS1, hasAt_iff]
    refine ⟨List.mem_cons_self _ _, ?_⟩
    intro p hpmem hpf
    rcases List.mem_cons.mp hpmem with hhead | htail
    · rw [hhead]
      omega
    · exact absurd hpf (hF1timers p htail)
  · rw [hS1]
    have hmem : f ∈ (fireTimers ⟨f :: F1.present, (f, t1 + ttl) :: F1.timers⟩ t2).present := by
      rw [mem_fireTimers_present]
      refine ⟨List.mem_cons_self _ _, ?_⟩
      intro p hpmem hpf
      rcases List.mem_cons.mp hpmem with hhead | htail
      · rw [hhead]
        omega
      · exact absurd hpf (hF1timers p htail)
    simp only [checkReplayAt]
    rw [if_pos ((strContains_iff_mem _ _).mpr hmem)]
  · intro g
    rw [hS1]
    set S1 : ReplayState := ⟨f :: F1.present, (f, t1 + ttl) :: F1.timers⟩ with hS1def
    have hfS1 : f ∈ (fireTimers S1 t2).present := by
      rw [mem_fireTimers_present]
      refine ⟨List.mem_cons_self _ _, ?_⟩
      intro p hpmem hpf
      rcases List.mem_cons.mp hpmem with hhead | htail
      · rw [hhead]
        omega
      · exact absurd hpf (hF1timers p htail)
    have hins : insertAt S1 t2 f ttl
        = ⟨(fireTimers S1 t2).present, (f, t2 + ttl) :: (fireTimers S1 t2).timers⟩ := by
      simp [insertAt, hfS1]
    rw [hins]
    by_cases hgf : g = f
    · subst hgf
      have hL : hasAt ⟨(fireTimers S1 t2).present, (g, t2 + ttl) :: (fireTimers S1 t2).timers⟩ t3 g
          = true ↔ (g ∈ S1.present ∧ ∀ p ∈ S1.timers, p.1 = g → t2 < p.2)
            ∧ t3 < t2 + ttl ∧ ∀ p ∈ S1.timers, p.1 = g → t2 < p.2 → t3 < p.2 := by
        rw [hasAt_iff]
        constructor
        · rintro ⟨hmem, hall⟩
          have hg2 := (mem_fireTimers_present S1 t2 g).mp hmem
          refine ⟨hg2, ?_, ?_⟩
          · exact hall (g, t2 + ttl) (List.mem_cons_self _ _) rfl
          · intro p hpmem hpg hp2
            exact hall p (List.mem_cons_of_mem _ ((mem_fireTimers_timers S1 t2 p).mpr
              ⟨hpmem, hp2⟩)) hpg
        · rintro ⟨hg2, hlt, hall⟩
          refine ⟨(mem_fireTimers_present S1 t2 g).mpr hg2, ?_⟩
          intro p hpmem hpg
          rcases List.mem_cons.mp hpmem with hhead | htail
          · rw [hhead]
            exact hlt
          · have := (mem_fireTimers_timers S1 t2 p).mp htail
            exact hall p this.1 hpg this.2
      have hR : hasAt S1 t3 g = true
          ↔ g ∈ S1.present ∧ ∀ p ∈ S1.timers, p.1 = g → t3 < p.2 := hasAt_iff _ _ _
      have hgpres : g ∈ S1.present := List.mem_cons_self _ _
      have hgtimer : ∀ p ∈ S1.timers, p.1 = g → (p.2 = t1 + ttl) := by
        intro p hpmem hpg
        rcases List.mem_cons.mp hpmem with hhead | htail
        · rw [hhead]
        · exact absurd hpg (hF1timers p htail)
      rw [Bool.eq_iff_iff, hL, hR]
      constructor
      · rintro ⟨_, _, hall⟩
        refine ⟨hgpres, ?_⟩
        intro p hpmem hpg
        have hpe := hgtimer p hpmem hpg
        exact hall p hpmem hpg (by omega)
      · rintro ⟨_, hall⟩
        refine ⟨⟨hgpres, ?_⟩, ?_, ?_⟩
        · intro p hpmem hpg
          have hpe := hgtimer p hpmem hpg
          have := hall p hpmem hpg
          omega
        · have := hall (g, t1 + ttl) (List.mem_cons_self _ _) rfl
          omega
        · intro p hpmem hpg _
          exact hall p hpmem hpg
    · have hL : hasAt ⟨(fireTimers S1 t2).present, (f, t2 + ttl) :: (fireTimers S1 t2).timers⟩ t3 g
          = true ↔ (g ∈ S1.present ∧ ∀ p ∈ S1.timers, p.1 = g → t2 < p.2)
            ∧ ∀ p ∈ S1.timers, p.1 = g → t2 < p.2 → t3 < p.2 := by
        rw [hasAt_iff]
        constructor
        · rintro ⟨hmem, hall⟩
          have hg2 := (mem_fireTimers_present S1 t2 g).mp hmem
          refine ⟨hg2, ?_⟩
          intro p hpmem hpg hp2
          exact hall p (List.mem_cons_of_mem _ ((mem_fireTimers_timers S1 t2 p).mpr
            ⟨hpmem, hp2⟩)) hpg
        · rintro ⟨hg2, hall⟩
          refine ⟨(mem_fireTimers_present S1 t2 g).mpr hg2, ?_⟩
          intro p hpmem hpg
          rcases List.mem_cons.mp hpmem with hhead | htail
          · exfalso
            apply hgf
            rw [hhead] at hpg
            exact hpg.symm
          · have := (mem_fireTimers_timers S1 t2 p).mp htail
            exact hall p this.1 hpg this.2
      have hR : hasAt S1 t3 g = true
          ↔ g ∈ S1.present ∧ ∀ p ∈ S1.timers, p.1 = g → t3 < p.2 := hasAt_iff _ _ _
      rw [Bool.eq_iff_iff, hL, hR]
      constructor
      · rintro ⟨⟨hgp, h2⟩, h3⟩
        refine ⟨hgp, ?_⟩
        intro p hpmem hpg
        exact h3 p hpmem hpg (h2 p hpmem hpg)
      · rintro ⟨hgp, h3⟩
        refine ⟨⟨hgp, ?_⟩, ?_⟩
        · intro p hpmem hpg
          have := h3 p hpmem hpg
          omega
        · intro p hpmem hpg _
          exact h3 p hpmem hpg

/-- Witness for C6 at a concrete store: fingerprint 0xaaa, ttl 5000,
first check at 0, second at 4999, observation at 4999. -/
theorem C6_replay_contract_witness :
    (checkReplayAt ReplayState.empty 0 "0xaaa" 5000).1 = false
    ∧ hasAt (checkReplayAt ReplayState.empty 0 "0xaaa" 5000).2 0 "0xaaa" = true
    ∧ (checkReplayAt (checkReplayAt ReplayState.empty 0 "0xaaa" 5000).2 4999 "0xaaa" 5000).1
        = true
    ∧ ∀ g, hasAt (insertAt (checkReplayAt ReplayState.empty 0 "0xaaa" 5000).2 4999 "0xaaa" 5000)
          4999 g
        = hasAt (checkReplayAt ReplayState.empty 0 "0xaaa" 5000).2 4999 g :=
  C6_replay_contract ReplayState.empty "0xaaa" 5000 0 4999 4999
    (by decide) (by decide) (by decide) (by decide) (by decide) (by decide)

/-! ## Claim C8: SSRF guard -/

/-- Bitwise and with a contiguous high mask below bit 32 clears the low
j bits. -/
theorem land_high_mask (a j : Nat) (ha : a < 2 ^ 32) (hj : j ≤ 32) :
    Nat.land a (2 ^ 32 - 2 ^ j) = a / 2 ^ j * 2 ^ j := by
  apply Nat.eq_of_testBit_eq
  intro i
  show (a &&& (2 ^ 32 - 2 ^ j)).testBit i = _
  rw [Nat.testBit_land]
  have hmask : 2 ^ 32 - 2 ^ j = (2 ^ (32 - j) - 1) <<< j := by
    rw [Nat.shiftLeft_eq, Nat.sub_mul, one_mul, ← pow_add]
    congr 2
    omega
  have hrhs : a / 2 ^ j * 2 ^ j = (a >>> j) <<< j := by
    rw [Nat.shiftRight_eq_div_pow, Nat.shiftLeft_eq]
  rw [hmask, hrhs, Nat.testBit_shiftLeft, Nat.testBit_shiftLeft, Nat.testBit_shiftRight,
    Nat.testBit_two_pow_sub_one]
  by_cases hji : j ≤ i
  · have hadd : j + (i - j) = i := by omega
    simp only [hji, decide_eq_true_eq, Bool.true_and, hadd, decide_True]
    by_cases hi32 : i < 32
    · have : i - j < 32 - j := by omega
      simp [this]
    · have hbit : a.testBit i = false :=
        Nat.testBit_lt_two_pow (lt_of_lt_of_le ha (Nat.pow_le_pow_right (by norm_num) (by omega)))
      have hng : ¬ (i - j < 32 - j) := by omega
      simp [hbit, hng]
  · simp [hji]

/-- Every dotted quad inside 172.16.0.0/12 passes the 12-bit range test
of ssrf.ts. -/
theorem isInRange_172_16_12 (ip : String) (p2 p3 p4 : Int)
    (hsplit : (strSplitOnChar '.' ip).map jsNumberOfString
      = [some 172, some p2, some p3, some p4])
    (h2a : 16 ≤ p2) (h2b : p2 ≤ 31) (h3a : 0 ≤ p3) (h3b : p3 ≤ 255)
    (h4a : 0 ≤ p4) (h4b : p4 ≤ 255) :
    isInRange ip 172 16 0 0 12 = true := by
  unfold isInRange
  rw [hsplit]
  split
  case h_2 x hne => exact absurd rfl (hne 172 p2 p3 p4)
  case h_1 x p0 p1 q2 q3 heq =>
  simp only [List.cons.injEq, Option.some.injEq, and_true] at heq
  obtain ⟨h0, h1, hq2, hq3⟩ := heq
  subst h0
  subst h1
  subst hq2
  subst hq3
  rw [if_pos (by refine ⟨by norm_num, by norm_num, ?_, ?_, ?_, ?_, ?_, ?_⟩ <;> omega)]
  simp only [beq_iff_eq]
  have e32 : (32:Nat) - 12 = 20 := by norm_num
  rw [e32]
  have ht : ((172 : Int).toNat : Nat) = 172 := rfl
  rw [ht]
  have e24 : (2:Nat) ^ 24 = 16777216 := by norm_num
  have e20 : (2:Nat) ^ 20 = 1048576 := by norm_num
  have e16 : (2:Nat) ^ 16 = 65536 := by norm_num
  have e8 : (2:Nat) ^ 8 = 256 := by norm_num
  have hb2 : p2.toNat ≤ 31 ∧ 16 ≤ p2.toNat := by omega
  have hb3 : p3.toNat ≤ 255 := by omega
  have hb4 : p4.toNat ≤ 255 := by omega
  rw [land_high_mask _ 20 (by rw [e24, e16, e8]; omega) (by norm_num),
      land_high_mask _ 20 (by norm_num) (by norm_num)]
  rw [e24, e16, e8, e20]
  omega

/-- Every dotted quad inside 192.168.0.0/16 passes the 16-bit range test
of ssrf.ts. -/
theorem isInRange_192_168_16 (ip : String) (p3 p4 : Int)
    (hsplit : (strSplitOnChar '.' ip).map jsNumberOfString
      = [some 192, some 168, some p3, some p4])
    (h3a : 0 ≤ p3) (h3b : p3 ≤ 255) (h4a : 0 ≤ p4) (h4b : p4 ≤ 255) :
    isInRange ip 192 168 0 0 16 = true := by
  unfold isInRange
  rw [hsplit]
  split
  case h_2 x hne => exact absurd rfl (hne 192 168 p3 p4)
  case h_1 x p0 p1 q2 q3 heq =>
  simp only [List.cons.injEq, Option.some.injEq, and_true] at heq
  obtain ⟨h0, h1, hq2, hq3⟩ := heq
  subst h0
  subst h1
  subst hq2
  subst hq3
  rw [if_pos (by refine ⟨by norm_num, by norm_num, by norm_num, by norm_num, ?_, ?_, ?_, ?_⟩
    <;> omega)]
  simp only [beq_iff_eq]
  have e32 : (32:Nat) - 16 = 16 := by norm_num
  rw [e32]
  have ht : ((192 : Int).toNat : Nat) = 192 := rfl
  have ht' : ((168 : Int).toNat : Nat) = 168 := rfl
  rw [ht, ht']
  have e24 : (2:Nat) ^ 24 = 16777216 := by norm_num
  have e16 : (2:Nat) ^ 16 = 65536 := by norm_num
  have e8 : (2:Nat) ^ 8 = 256 := by norm_num
  have hb3 : p3.toNat ≤ 255 := by omega
  have hb4 : p4.toNat ≤ 255 := by omega
  rw [land_high_mask _ 16 (by rw [e24, e16, e8]; omega) (by norm_num),
      land_high_mask _ 16 (by norm_num) (by norm_num)]
  rw [e24, e16, e8]
  omega

/-- C8 counterexample: the hostname febf::1 lies in fe80::/10 (leading
group febf is between fe80 and febf), yet isPrivateOrReserved returns
false for it and assertNotSSRF does not throw: the code tests the
textual prefix fe80 only, which covers just the first sixteenth of
fe80::/10. -/
theorem C8_fe80_counterexample :
    specInFe80Slash10 "febf::1" = true
    ∧ isPrivateOrReserved "febf::1" = false
    ∧ assertNotSSRFThrows (some "febf::1") = false := by
  decide

/-- Any one satisfied branch makes isPrivateOrReserved return true. -/
theorem isPrivateOrReserved_true_of (h : String)
    (hor : privateRangesV4.any (fun p => strStartsWith h p) = true
      ∨ isInRange h 172 16 0 0 12 = true
      ∨ isInRange h 192 168 0 0 16 = true
      ∨ strStartsWith (stripBrackets (strLower h)) "fc" = true
      ∨ strStartsWith (stripBrackets (strLower h)) "fd" = true
      ∨ strStartsWith (stripBrackets (strLower h)) "fe80" = true) :
    isPrivateOrReserved h = true := by
  unfold isPrivateOrReserved
  simp only [Bool.or_eq_true]
  split_ifs with h1 h2 h3 h4 h5 h6 h7 <;> try rfl
  rcases hor with hv4 | hin172 | hin192 | hfc | hfd | hfe
  · exact absurd hv4 h5
  · exact absurd hin172 h6
  · exact absurd hin192 h7
  · exact absurd (Or.inl hfc) h3
  · exact absurd (Or.inr hfd) h3
  · exact absurd hfe h4

/-- C8 (amended): isPrivateOrReserved returns true for localhost,
0.0.0.0, ::1 and the bracketed unspecified address; for every hostname
with textual IPv4 prefix 127. / 10. / 0. / 169.254.; for every dotted
quad in 172.16.0.0/12 and 192.168.0.0/16; and for every hostname whose
lowercased, bracket-stripped text starts with fc, fd or fe80 (which
covers all of fc00::/7 but only the fe80-prefixed sixteenth of
fe80::/10). assertNotSSRF throws for every string that fails to parse as
a URL and for every URL whose parsed hostname isPrivateOrReserved
accepts. -/
theorem C8_ssrf_coverage :
    (isPrivateOrReserved "localhost" = true ∧ isPrivateOrReserved "0.0.0.0" = true
      ∧ isPrivateOrReserved "::1" = true ∧ isPrivateOrReserved "[::]" = true)
    ∧ (∀ h pfx, pfx ∈ privateRangesV4 → strStartsWith h pfx = true →
        isPrivateOrReserved h = true)
    ∧ (∀ ip (p2 p3 p4 : Int), (strSplitOnChar '.' ip).map jsNumberOfString
          = [some 172, some p2, some p3, some p4] →
        16 ≤ p2 → p2 ≤ 31 → 0 ≤ p3 → p3 ≤ 255 → 0 ≤ p4 → p4 ≤ 255 →
        isPrivateOrReserved ip = true)
    ∧ (∀ ip (p3 p4 : Int), (strSplitOnChar '.' ip).map jsNumberOfString
          = [some 192, some 168, some p3, some p4] →
        0 ≤ p3 → p3 ≤ 255 → 0 ≤ p4 → p4 ≤ 255 →
        isPrivateOrReserved ip = true)
    ∧ (∀ h, (strStartsWith (stripBrackets (strLower h)) "fc" = true
          ∨ strStartsWith (stripBrackets (strLower h)) "fd" = true
          ∨ strStartsWith (stripBrackets (strLower h)) "fe80" = true) →
        isPrivateOrReserved h = true)
    ∧ assertNotSSRFThrows none = true
    ∧ (∀ h, isPrivateOrReserved h = true → assertNotSSRFThrows (some h) = true) := by
  refine ⟨by decide, ?_, ?_, ?_, ?_, rfl, ?_⟩
  · intro h pfx hmem hsw
    exact isPrivateOrReserved_true_of h
      (Or.inl (List.any_eq_true.mpr ⟨pfx, hmem, hsw⟩))
  · intro ip p2 p3 p4 hsplit h2a h2b h3a h3b h4a h4b
    exact isPrivateOrReserved_true_of ip
      (Or.inr (Or.inl (isInRange_172_16_12 ip p2 p3 p4 hsplit h2a h2b h3a h3b h4a h4b)))
  · intro ip p3 p4 hsplit h3a h3b h4a h4b
    exact isPrivateOrReserved_true_of ip
      (Or.inr (Or.inr (Or.inl (isInRange_192_168_16 ip p3 p4 hsplit h3a h3b h4a h4b))))
  · intro h hor
    refine isPrivateOrReserved_true_of h ?_
    rcases hor with hfc | hfd | hfe
    · exact Or.inr (Or.inr (Or.inr (Or.inl hfc)))
    · exact Or.inr (Or.inr (Or.inr (Or.inr (Or.inl hfd))))
    · exact Or.inr (Or.inr (Or.inr (Or.inr (Or.inr hfe))))
  · intro h hpriv
    simp [assertNotSSRFThrows, hpriv]

/-- Witness for C8 at concrete hosts: a 10. host, a 172.16/12 quad, a
192.168/16 quad and an fc00::/7 literal are all blocked, and a private
URL hostname makes assertNotSSRF throw. -/
theorem C8_ssrf_coverage_witness :
    isPrivateOrReserved "10.1.2.3" = true
    ∧ isPrivateOrReserved "172.20.1.2" = true
    ∧ isPrivateOrReserved "192.168.1.100" = true
    ∧ isPrivateOrReserved "fc00::1" = true
    ∧ assertNotSSRFThrows (some "127.0.0.1") = true := by
  refine ⟨?_, ?_, ?_, ?_, ?_⟩
  · exact C8_ssrf_coverage.2.1 "10.1.2.3" "10." (by decide) (by decide)
  · exact C8_ssrf_coverage.2.2.1 "172.20.1.2" 20 1 2 (by decide)
      (by decide) (by decide) (by decide) (by decide) (by decide) (by decide)
  · exact C8_ssrf_coverage.2.2.2.1 "192.168.1.100" 1 100 (by decide)
      (by decide) (by decide) (by decide) (by decide)
  · exact C8_ssrf_coverage.2.2.2.2.1 "fc00::1" (Or.inl (by decide))
  · exact C8_ssrf_coverage.2.2.2.2.2.2 "127.0.0.1"
      (C8_ssrf_coverage.2.1 "127.0.0.1" "127." (by decide) (by decide))

/-! ## Claim C3: canonical hash sensitivity in the idempotency stage -/

theorem chain7_pos1 (a a' b c d e f g : String)
    (h : a ++ "|" ++ b ++ "|" ++ c ++ "|" ++ d ++ "|" ++ e ++ "|" ++ f ++ "|" ++ g
       = a' ++ "|" ++ b ++ "|" ++ c ++ "|" ++ d ++ "|" ++ e ++ "|" ++ f ++ "|" ++ g) :
    a = a' := by
  have hd := congrArg String.data h
  simp only [String.data_append, List.append_assoc] at hd
  exact String.ext (List.append_cancel_right hd)

theorem chain7_pos2 (a b b' c d e f g : String)
    (h : a ++ "|" ++ b ++ "|" ++ c ++ "|" ++ d ++ "|" ++ e ++ "|" ++ f ++ "|" ++ g
       = a ++ "|" ++ b' ++ "|" ++ c ++ "|" ++ d ++ "|" ++ e ++ "|" ++ f ++ "|" ++ g) :
    b = b' := by
  have hd := congrArg String.data h
  simp only [String.data_append, List.append_assoc] at hd
  have hd := List.append_cancel_left hd
  have hd := List.append_cancel_left hd
  exact String.ext (List.append_cancel_right hd)

theorem chain7_pos4 (a b c d d' e f g : String)
    (h : a ++ "|" ++ b ++ "|" ++ c ++ "|" ++ d ++ "|" ++ e ++ "|" ++ f ++ "|" ++ g
       = a ++ "|" ++ b ++ "|" ++ c ++ "|" ++ d' ++ "|" ++ e ++ "|" ++ f ++ "|" ++ g) :
    d = d' := by
  have hd := congrArg String.data h
  simp only [String.data_append, List.append_assoc] at hd
  have hd := List.append_cancel_left hd
  have hd := List.append_cancel_left hd
  have hd := List.append_cancel_left hd
  have hd := List.append_cancel_left hd
  have hd := List.append_cancel_left hd
  have hd := List.append_cancel_left hd
  exact String.ext (List.append_cancel_right hd)

theorem chain7_pos5 (a b c d e e' f g : String)
    (h : a ++ "|" ++ b ++ "|" ++ c ++ "|" ++ d ++ "|" ++ e ++ "|" ++ f ++ "|" ++ g
       = a ++ "|" ++ b ++ "|" ++ c ++ "|" ++ d ++ "|" ++ e' ++ "|" ++ f ++ "|" ++ g) :
    e = e' := by
  have hd := congrArg String.data h
  simp only [String.data_append, List.append_assoc] at hd
  have hd := List.append_cancel_left hd
  have hd := List.append_cancel_left hd
  have hd := List.append_cancel_left hd
  have hd := List.append_cancel_left hd
  have hd := List.append_cancel_left hd
  have hd := List.append_cancel_left hd
  have hd := List.append_cancel_left hd
  have hd := List.append_cancel_left hd
  exact String.ext (List.append_cancel_right hd)

theorem chain7_pos6 (a b c d e f f' g : String)
    (h : a ++ "|" ++ b ++ "|" ++ c ++ "|" ++ d ++ "|" ++ e ++ "|" ++ f ++ "|" ++ g
       = a ++ "|" ++ b ++ "|" ++ c ++ "|" ++ d ++ "|" ++ e ++ "|" ++ f' ++ "|" ++ g) :
    f = f' := by
  have hd := congrArg String.data h
  simp only [String.data_append, List.append_assoc] at hd
  have hd := List.append_cancel_left hd
  have hd := List.append_cancel_left hd
  have hd := List.append_cancel_left hd
  have hd := List.append_cancel_left hd
  have hd := List.append_cancel_left hd
  have hd := List.append_cancel_left hd
  have hd := List.append_cancel_left hd
  have hd := List.append_cancel_left hd
  have hd := List.append_cancel_left hd
  have hd := List.append_cancel_left hd
  exact String.ext (List.append_cancel_right hd)

/-- C3 counterexample: two requests that differ only in a query value
produce the same fingerprint in the idempotency stage, because
createIdempotencyMiddleware never passes the query to requestHash (and
req.path carries no query string). -/
theorem C3_query_ignored_counterexample :
    ([("a", "1")] : List (String × String)) ≠ [("a", "2")]
    ∧ idempotencyFingerprint id 300000 0 "0.01"
        ⟨"GET", "/api/v1/quote", [("a", "1")], some "k", MandateHeader.absent, none⟩ "k"
      = idempotencyFingerprint id 300000 0 "0.01"
        ⟨"GET", "/api/v1/quote", [("a", "2")], some "k", MandateHeader.absent, none⟩ "k" :=
  ⟨by decide, rfl⟩

/-- C3 (amended): for the fingerprint computed in the idempotency stage,
changing the uppercased method, the path, the serialized body, the route
price (after the empty-string default), or the idempotency key changes
the fingerprint (given a collision-free hash); the query is not an input
of the stage fingerprint, so any change or reordering of query keys
leaves it unchanged. -/
theorem C3_fingerprint_sensitivity (H : String → String) (hH : Function.Injective H)
    (ttl now : Nat) (price : String) (m p : String) (q q' : List (String × String))
    (ik : Option String) (mh : MandateHeader) (b : Option String) (key : String) :
    (idempotencyFingerprint H ttl now price ⟨m, p, q', ik, mh, b⟩ key
        = idempotencyFingerprint H ttl now price ⟨m, p, q, ik, mh, b⟩ key)
    ∧ (∀ m', strUpper m' ≠ strUpper m →
        idempotencyFingerprint H ttl now price ⟨m', p, q, ik, mh, b⟩ key
          ≠ idempotencyFingerprint H ttl now price ⟨m, p, q, ik, mh, b⟩ key)
    ∧ (∀ p', p' ≠ p →
        idempotencyFingerprint H ttl now price ⟨m, p', q, ik, mh, b⟩ key
          ≠ idempotencyFingerprint H ttl now price ⟨m, p, q, ik, mh, b⟩ key)
    ∧ (∀ b' : Option String, b'.getD "" ≠ b.getD "" →
        idempotencyFingerprint H ttl now price ⟨m, p, q, ik, mh, b'⟩ key
          ≠ idempotencyFingerprint H ttl now price ⟨m, p, q, ik, mh, b⟩ key)
    ∧ (∀ pr', orDefault pr' "0" ≠ orDefault price "0" →
        idempotencyFingerprint H ttl now pr' ⟨m, p, q, ik, mh, b⟩ key
          ≠ idempotencyFingerprint H ttl now price ⟨m, p, q, ik, mh, b⟩ key)
    ∧ (∀ k', k' ≠ key →
        idempotencyFingerprint H ttl now price ⟨m, p, q, ik, mh, b⟩ k'
          ≠ idempotencyFingerprint H ttl now price ⟨m, p, q, ik, mh, b⟩ key) := by
  refine ⟨rfl, ?_, ?_, ?_, ?_, ?_⟩
  · intro m' hne heq
    apply hne
    have hc : strUpper m' ++ "|" ++ p ++ "|" ++ "" ++ "|" ++ H (b.getD "") ++ "|"
          ++ orDefault price "0" ++ "|" ++ key ++ "|" ++ Nat.repr (now / ttl)
        = strUpper m ++ "|" ++ p ++ "|" ++ "" ++ "|" ++ H (b.getD "") ++ "|"
          ++ orDefault price "0" ++ "|" ++ key ++ "|" ++ Nat.repr (now / ttl) := hH heq
    exact chain7_pos1 _ _ _ _ _ _ _ _ hc
  · intro p' hne heq
    apply hne
    have hc : strUpper m ++ "|" ++ p' ++ "|" ++ "" ++ "|" ++ H (b.getD "") ++ "|"
          ++ orDefault price "0" ++ "|" ++ key ++ "|" ++ Nat.repr (now / ttl)
        = strUpper m ++ "|" ++ p ++ "|" ++ "" ++ "|" ++ H (b.getD "") ++ "|"
          ++ orDefault price "0" ++ "|" ++ key ++ "|" ++ Nat.repr (now / ttl) := hH heq
    exact chain7_pos2 _ _ _ _ _ _ _ _ hc
  · intro b' hne heq
    apply hne
    apply hH
    have hc : strUpper m ++ "|" ++ p ++ "|" ++ "" ++ "|" ++ H (b'.getD "") ++ "|"
          ++ orDefault price "0" ++ "|" ++ key ++ "|" ++ Nat.repr (now / ttl)
        = strUpper m ++ "|" ++ p ++ "|" ++ "" ++ "|" ++ H (b.getD "") ++ "|"
          ++ orDefault price "0" ++ "|" ++ key ++ "|" ++ Nat.repr (now / ttl) := hH heq
    exact chain7_pos4 _ _ _ _ _ _ _ _ hc
  · intro pr' hne heq
    apply hne
    have hc : strUpper m ++ "|" ++ p ++ "|" ++ "" ++ "|" ++ H (b.getD "") ++ "|"
          ++ orDefault pr' "0" ++ "|" ++ key ++ "|" ++ Nat.repr (now / ttl)
        = strUpper m ++ "|" ++ p ++ "|" ++ "" ++ "|" ++ H (b.getD "") ++ "|"
          ++ orDefault price "0" ++ "|" ++ key ++ "|" ++ Nat.repr (now / ttl) := hH heq
    exact chain7_pos5 _ _ _ _ _ _ _ _ hc
  · intro k' hne heq
    apply hne
    have hc : strUpper m ++ "|" ++ p ++ "|" ++ "" ++ "|" ++ H (b.getD "") ++ "|"
          ++ orDefault price "0" ++ "|" ++ k' ++ "|" ++ Nat.repr (now / ttl)
        = strUpper m ++ "|" ++ p ++ "|" ++ "" ++ "|" ++ H (b.getD "") ++ "|"
          ++ orDefault price "0" ++ "|" ++ key ++ "|" ++ Nat.repr (now / ttl) := hH heq
    exact chain7_pos6 _ _ _ _ _ _ _ _ hc

/-- Witness for C3 at concrete inputs with the identity hash: a changed
idempotency key and a changed price each change the fingerprint, and a
reordered query map does not. -/
theorem C3_fingerprint_sensitivity_witness :
    (idempotencyFingerprint id 300000 0 "0.01"
        ⟨"GET", "/api/v1/quote", [("a", "1"), ("b", "2")], some "k", MandateHeader.absent, none⟩
        "k2"
      ≠ idempotencyFingerprint id 300000 0 "0.01"
        ⟨"GET", "/api/v1/quote", [("a", "1"), ("b", "2")], some "k", MandateHeader.absent, none⟩
        "k")
    ∧ (idempotencyFingerprint id 300000 0 "0.01"
        ⟨"GET", "/api/v1/quote", [("b", "2"), ("a", "1")], some "k", MandateHeader.absent, none⟩
        "k"
      = idempotencyFingerprint id 300000 0 "0.01"
        ⟨"GET", "/api/v1/quote", [("a", "1"), ("b", "2")], some "k", MandateHeader.absent, none⟩
        "k") :=
  ⟨(C3_fingerprint_sensitivity id (fun _ _ h => h) 300000 0 "0.01" "GET" "/api/v1/quote"
      [("a", "1"), ("b", "2")] [("b", "2"), ("a", "1")] (some "k") MandateHeader.absent none
      "k").2.2.2.2.2 "k2" (by decide),
   (C3_fingerprint_sensitivity id (fun _ _ h => h) 300000 0 "0.01" "GET" "/api/v1/quote"
      [("a", "1"), ("b", "2")] [("b", "2"), ("a", "1")] (some "k") MandateHeader.absent none
      "k").1⟩

/-! ## Claim C2: mandate ledger increments -/

theorem lookup_setEntry (id : String) (e : SpendEntry) :
    ∀ t : SpendTracker, List.lookup id (setEntry id e t) = some e := by
  intro t
  induction t with
  | nil => simp [setEntry, List.lookup]
  | cons hd tl ih =>
      obtain ⟨k, v⟩ := hd
      by_cases hk : k = id
      · simp [setEntry, hk, List.lookup]
      · have hik : (id == k) = false := beq_eq_false_iff_ne.mpr (Ne.symm hk)
        simp [setEntry, hk, List.lookup, ih, hik]

/-- Adding spend raises the daily total read back for the same id and
date by exactly the amount. -/
theorem getSpent_addSpend (t : SpendTracker) (id : String) (a : ℚ) (today : String) :
    getSpent (addSpend t id a today) id today = getSpent t id today + a := by
  unfold addSpend getSpent
  cases hl : t.lookup id with
  | none => simp [hl, lookup_setEntry]
  | some e =>
      by_cases hd : e.date = today
      · simp [hl, hd, lookup_setEntry, qAdd_eq]
      · simp [hl, hd, lookup_setEntry]

theorem lookup_setLifetime (key : String) (v : ℚ) :
    ∀ t : LifetimeTracker, List.lookup key (setLifetime key v t) = some v := by
  intro t
  induction t with
  | nil => simp [setLifetime, List.lookup]
  | cons hd tl ih =>
      obtain ⟨k, w⟩ := hd
      by_cases hk : k = key
      · simp [setLifetime, hk, List.lookup]
      · have hik : (key == k) = false := beq_eq_false_iff_ne.mpr (Ne.symm hk)
        simp [setLifetime, hk, List.lookup, ih, hik]

/-- Adding lifetime spend raises the total read back for the key by
exactly the amount. -/
theorem getLifetime_addLifetime (t : LifetimeTracker) (key : String) (a : ℚ) :
    getLifetime (addLifetime t key a) key = getLifetime t key + a := by
  unfold addLifetime getLifetime
  simp [lookup_setLifetime, qAdd_eq]

/-- On approval, verifyMandate returns the tracker with the price added
for the mandate id. -/
theorem verifyMandate_approved_spend (sig : Bool) (dp : String → Option Int)
    (m : Mandate) (ctx : MandateRequestContext) (sp : SpendTracker) (today : String)
    (h : (verifyMandate sig dp m ctx sp today).1.approved = true) :
    (verifyMandate sig dp m ctx sp today).2
      = addSpend sp m.mandate_id (parseFloatQ ctx.price_usdc) today := by
  simp only [verifyMandate] at h ⊢
  split_ifs at h ⊢ <;> simp_all

/-- On approval, verifyIntentMandate returns the tracker with the price
added for the derived intent mandate id. -/
theorem verifyIntentMandate_approved_spend (sig : Bool) (dp : String → Option Int)
    (ch : IntentMandateContents → String) (im : IntentMandate)
    (ictx : IntentMandateRequestContext) (lt : LifetimeTracker)
    (h : (verifyIntentMandate sig dp ch im ictx lt).1.approved = true) :
    (verifyIntentMandate sig dp ch im ictx lt).2
      = addLifetime lt (intentMandateId ch im.contents) (parseFloatQ ictx.price_usdc) := by
  simp only [verifyIntentMandate] at h ⊢
  split_ifs at h ⊢ <;> simp_all

/-- C2 counterexample: a pipeline run whose Kind A mandate is APPROVED
and whose upstream call fails (HTTP 502, reason UPSTREAM_ERROR_NO_CHARGE,
receipt price 0.00) leaves the daily ledger at 0.03 instead of reverting
it to its pre-request value 0: no revert exists in the catch branch of
createApp. -/
theorem C2_no_revert_counterexample :
    (runPipeline
      { H := id, dateParse := fun _ => some 0,
        route := some { tool_id := "quote", provider_id := "prov", price := "0.03" },
        sigOk := true, nowMs := 0, today := "2026-10-11", nowIso := "t",
        replayTtlMs := 300000, upstream := Except.error "ECONNREFUSED" }
      { method := "GET", path := "/api/v1/quote", query := [], idempotencyKey := none,
        mandateHeader := MandateHeader.valid
          { mandate_id := "m-1", owner_pubkey := "0xowner",
            expires_at := "2099-01-01T00:00:00.000Z", max_spend_usdc_per_day := "1.00",
            allowlisted_tool_ids := ["quote"], require_user_confirm_for_price_over := none,
            signature := "0xsig" },
        bodyStr := none }
      ReplayState.empty []).stage = Stage.upstreamErr
    ∧ (runPipeline
      { H := id, dateParse := fun _ => some 0,
        route := some { tool_id := "quote", provider_id := "prov", price := "0.03" },
        sigOk := true, nowMs := 0, today := "2026-10-11", nowIso := "t",
        replayTtlMs := 300000, upstream := Except.error "ECONNREFUSED" }
      { method := "GET", path := "/api/v1/quote", query := [], idempotencyKey := none,
        mandateHeader := MandateHeader.valid
          { mandate_id := "m-1", owner_pubkey := "0xowner",
            expires_at := "2099-01-01T00:00:00.000Z", max_spend_usdc_per_day := "1.00",
            allowlisted_tool_ids := ["quote"], require_user_confirm_for_price_over := none,
            signature := "0xsig" },
        bodyStr := none }
      ReplayState.empty []).status = 502
    ∧ getSpent (runPipeline
      { H := id, dateParse := fun _ => some 0,
        route := some { tool_id := "quote", provider_id := "prov", price := "0.03" },
        sigOk := true, nowMs := 0, today := "2026-10-11", nowIso := "t",
        replayTtlMs := 300000, upstream := Except.error "ECONNREFUSED" }
      { method := "GET", path := "/api/v1/quote", query := [], idempotencyKey := none,
        mandateHeader := MandateHeader.valid
          { mandate_id := "m-1", owner_pubkey := "0xowner",
            expires_at := "2099-01-01T00:00:00.000Z", max_spend_usdc_per_day := "1.00",
            allowlisted_tool_ids := ["quote"], require_user_confirm_for_price_over := none,
            signature := "0xsig" },
        bodyStr := none }
      ReplayState.empty []).spend "m-1" "2026-10-11" = mkRat 3 100
    ∧ getSpent ([] : SpendTracker) "m-1" "2026-10-11" = 0 := by
  refine ⟨by decide, by decide, by decide, by decide⟩

/-- C2 (amended): whenever a pipeline run whose Kind A mandate is
APPROVED reaches the proxy stage, the daily ledger has been incremented
by exactly the route price before that stage, and it keeps this
increment on both the success and the upstream-error (502,
UPSTREAM_ERROR_NO_CHARGE) paths: the increment is never reverted. The
same increment-by-price holds for the lifetime ledger when
verifyIntentMandate approves a Kind B mandate. -/
theorem C2_ledger_increment (env : PipelineEnv) (req : GatewayRequest)
    (rs : ReplayState) (sp : SpendTracker) (mr : RouteMatch) (m : Mandate)
    (hroute : env.route = some mr)
    (hmh : req.mandateHeader = MandateHeader.valid m)
    (happ : (verifyMandate env.sigOk env.dateParse m
        { tool_id := orDefault mr.tool_id "unknown", price_usdc := orDefault mr.price "0",
          timestamp := env.nowIso } sp env.today).1.approved = true)
    (hstage : (runPipeline env req rs sp).stage = Stage.upstreamOk
      ∨ (runPipeline env req rs sp).stage = Stage.upstreamErr) :
    ((runPipeline env req rs sp).spend
        = addSpend sp m.mandate_id (parseFloatQ (orDefault mr.price "0")) env.today
      ∧ getSpent (runPipeline env req rs sp).spend m.mandate_id env.today
        = getSpent sp m.mandate_id env.today + parseFloatQ (orDefault mr.price "0"))
    ∧ (∀ (sig : Bool) (dp : String → Option Int) (ch : IntentMandateContents → String)
        (im : IntentMandate) (ictx : IntentMandateRequestContext) (lt : LifetimeTracker),
        (verifyIntentMandate sig dp ch im ictx lt).1.approved = true →
        getLifetime (verifyIntentMandate sig dp ch im ictx lt).2
            (intentMandateId ch im.contents)
          = getLifetime lt (intentMandateId ch im.contents) + parseFloatQ ictx.price_usdc) := by
  have hsp : (runPipeline env req rs sp).spend
      = addSpend sp m.mandate_id (parseFloatQ (orDefault mr.price "0")) env.today := by
    have hverify := verifyMandate_approved_spend env.sigOk env.dateParse m
      { tool_id := orDefault mr.tool_id "unknown", price_usdc := orDefault mr.price "0",
        timestamp := env.nowIso } sp env.today happ
    cases hik : req.idempotencyKey with
    | none =>
        cases hu : env.upstream with
        | ok v =>
            simp [runPipeline, hroute, hik, mandateStage, hmh, happ, proxyStage, hu, hverify]
        | error e =>
            simp [runPipeline, hroute, hik, mandateStage, hmh, happ, proxyStage, hu, hverify]
    | some key =>
        by_cases hcr : (checkReplayAt rs env.nowMs
            (idempotencyFingerprint env.H env.replayTtlMs env.nowMs mr.price req key)
            env.replayTtlMs).1
        · rw [runPipeline, hroute, hik] at hstage
          simp only [hcr, if_true] at hstage
          simp at hstage
        · cases hu : env.upstream with
          | ok v =>
              simp [runPipeline, hroute, hik, hcr, mandateStage, hmh, happ, proxyStage, hu,
                hverify]
          | error e =>
              simp [runPipeline, hroute, hik, hcr, mandateStage, hmh, happ, proxyStage, hu,
                hverify]
  refine ⟨⟨hsp, ?_⟩, ?_⟩
  · rw [hsp, getSpent_addSpend]
  · intro sig dp ch im ictx lt happ'
    rw [verifyIntentMandate_approved_spend sig dp ch im ictx lt happ',
      getLifetime_addLifetime]

/-- Witness for C2: a concrete approved run on the upstream-error path
keeps the 0.03 increment in the daily ledger. -/
theorem C2_ledger_increment_witness :
    (runPipeline
      { H := id, dateParse := fun _ => some 0,
        route := some { tool_id := "quote", provider_id := "prov", price := "0.03" },
        sigOk := true, nowMs := 0, today := "2026-10-11", nowIso := "t",
        replayTtlMs := 300000, upstream := Except.error "ECONNREFUSED" }
      { method := "GET", path := "/api/v1/quote", query := [], idempotencyKey := none,
        mandateHeader := MandateHeader.valid
          { mandate_id := "m-1", owner_pubkey := "0xowner",
            expires_at := "2099-01-01T00:00:00.000Z", max_spend_usdc_per_day := "1.00",
            allowlisted_tool_ids := ["quote"], require_user_confirm_for_price_over := none,
            signature := "0xsig" },
        bodyStr := none }
      ReplayState.empty []).spend
      = addSpend [] "m-1" (parseFloatQ "0.03") "2026-10-11" :=
  (C2_ledger_increment
    { H := id, dateParse := fun _ => some 0,
      route := some { tool_id := "quote", provider_id := "prov", price := "0.03" },
      sigOk := true, nowMs := 0, today := "2026-10-11", nowIso := "t",
      replayTtlMs := 300000, upstream := Except.error "ECONNREFUSED" }
    { method := "GET", path := "/api/v1/quote", query := [], idempotencyKey := none,
      mandateHeader := MandateHeader.valid
        { mandate_id := "m-1", owner_pubkey := "0xowner",
          expires_at := "2099-01-01T00:00:00.000Z", max_spend_usdc_per_day := "1.00",
          allowlisted_tool_ids := ["quote"], require_user_confirm_for_price_over := none,
          signature := "0xsig" },
      bodyStr := none }
    ReplayState.empty []
    { tool_id := "quote", provider_id := "prov", price := "0.03" }
    { mandate_id := "m-1", owner_pubkey := "0xowner",
      expires_at := "2099-01-01T00:00:00.000Z", max_spend_usdc_per_day := "1.00",
      allowlisted_tool_ids := ["quote"], require_user_confirm_for_price_over := none,
      signature := "0xsig" }
    rfl rfl (by decide) (Or.inr (by decide))).1.1

/-! ## Claim C9: replay insertion before the mandate and payment stages -/

/-- The mandate, payment and proxy stages never modify the replay store. -/
theorem mandateStage_replay (env : PipelineEnv) (mr : RouteMatch) (req : GatewayRequest)
    (hash : Option String) (rs : ReplayState) (sp : SpendTracker) :
    (mandateStage env mr req hash rs sp).replay = rs := by
  cases hmh : req.mandateHeader with
  | absent =>
      cases hu : env.upstream with
      | ok v => simp [mandateStage, hmh, proxyStage, hu]
      | error e => simp [mandateStage, hmh, proxyStage, hu]
  | malformed => simp [mandateStage, hmh]
  | valid m =>
      by_cases happ : (verifyMandate env.sigOk env.dateParse m
          { tool_id := orDefault mr.tool_id "unknown", price_usdc := orDefault mr.price "0",
            timestamp := env.nowIso } sp env.today).1.approved
      · cases hu : env.upstream with
        | ok v => simp [mandateStage, hmh, happ, proxyStage, hu]
        | error e => simp [mandateStage, hmh, happ, proxyStage, hu]
      · simp [mandateStage, hmh, happ]

/-- C9 counterexample: an identical retry within the replay TTL but in
the next time window is not denied with 409; both attempts are evaluated
by the mandate stage (403 here). ttl = 5000, first attempt at 4999,
retry at 5000, 1 ms later. -/
theorem C9_window_boundary_counterexample :
    (runPipeline
      { H := id, dateParse := fun _ => some 0,
        route := some { tool_id := "quote", provider_id := "prov", price := "0" },
        sigOk := false, nowMs := 4999, today := "2026-10-11", nowIso := "t",
        replayTtlMs := 5000, upstream := Except.ok (200, "data") }
      { method := "GET", path := "/api/v1/quote", query := [], idempotencyKey := some "K",
        mandateHeader := MandateHeader.valid
          { mandate_id := "m-1", owner_pubkey := "0xowner",
            expires_at := "2099-01-01T00:00:00.000Z", max_spend_usdc_per_day := "1.00",
            allowlisted_tool_ids := ["quote"], require_user_confirm_for_price_over := none,
            signature := "0xbad" },
        bodyStr := none }
      ReplayState.empty []).status = 403
    ∧ (runPipeline
      { H := id, dateParse := fun _ => some 0,
        route := some { tool_id := "quote", provider_id := "prov", price := "0" },
        sigOk := false, nowMs := 5000, today := "2026-10-11", nowIso := "t",
        replayTtlMs := 5000, upstream := Except.ok (200, "data") }
      { method := "GET", path := "/api/v1/quote", query := [], idempotencyKey := some "K",
        mandateHeader := MandateHeader.valid
          { mandate_id := "m-1", owner_pubkey := "0xowner",
            expires_at := "2099-01-01T00:00:00.000Z", max_spend_usdc_per_day := "1.00",
            allowlisted_tool_ids := ["quote"], require_user_confirm_for_price_over := none,
            signature := "0xbad" },
        bodyStr := none }
      (runPipeline
        { H := id, dateParse := fun _ => some 0,
          route := some { tool_id := "quote", provider_id := "prov", price := "0" },
          sigOk := false, nowMs := 4999, today := "2026-10-11", nowIso := "t",
          replayTtlMs := 5000, upstream := Except.ok (200, "data") }
        { method := "GET", path := "/api/v1/quote", query := [], idempotencyKey := some "K",
          mandateHeader := MandateHeader.valid
            { mandate_id := "m-1", owner_pubkey := "0xowner",
              expires_at := "2099-01-01T00:00:00.000Z", max_spend_usdc_per_day := "1.00",
              allowlisted_tool_ids := ["quote"], require_user_confirm_for_price_over := none,
              signature := "0xbad" },
          bodyStr := none }
        ReplayState.empty []).replay []).stage = Stage.mandateDenied
    ∧ (5000 : Nat) - 4999 < 5000 := by
  refine ⟨by decide, by decide, by decide⟩

/-- C9 (amended): for a routed request with an idempotency key whose
fingerprint is new, the idempotency stage inserts the fingerprint into
the replay store before the mandate and payment stages run (it is
present in the final replay state whatever the later stages did), and an
identical retry within the same replay time window (same
floor(now / ttl)) is denied with 409 REPLAY_DETECTED without touching
the spend ledger. Retries within the TTL but across a window boundary
hash differently and are re-evaluated. -/
theorem C9_insert_before_mandate (e : PipelineEnv) (req : GatewayRequest)
    (rs : ReplayState) (sp sp2 : SpendTracker) (mr : RouteMatch) (key : String)
    (t1 t2 : Nat)
    (hroute : e.route = some mr)
    (hik : req.idempotencyKey = some key)
    (httl : 0 < e.replayTtlMs)
    (hfresh1 : idempotencyFingerprint e.H e.replayTtlMs t1 mr.price req key ∉ rs.present)
    (hfresh2 : ∀ p ∈ rs.timers,
      p.1 ≠ idempotencyFingerprint e.H e.replayTtlMs t1 mr.price req key)
    (hwin : t1 / e.replayTtlMs = t2 / e.replayTtlMs)
    (h12 : t1 ≤ t2) :
    hasAt (runPipeline { e with nowMs := t1 } req rs sp).replay t1
        (idempotencyFingerprint e.H e.replayTtlMs t1 mr.price req key) = true
    ∧ (runPipeline { e with nowMs := t2 } req
        (runPipeline { e with nowMs := t1 } req rs sp).replay sp2).stage = Stage.replayHit
    ∧ (runPipeline { e with nowMs := t2 } req
        (runPipeline { e with nowMs := t1 } req rs sp).replay sp2).status = 409
    ∧ (∃ r, (runPipeline { e with nowMs := t2 } req
          (runPipeline { e with nowMs := t1 } req rs sp).replay sp2).bodyReceipt = some r
        ∧ r.reason_code = ReasonCode.REPLAY_DETECTED ∧ r.outcome = Outcome.DENIED)
    ∧ (runPipeline { e with nowMs := t2 } req
        (runPipeline { e with nowMs := t1 } req rs sp).replay sp2).spend = sp2 := by
  set fp := idempotencyFingerprint e.H e.replayTtlMs t1 mr.price req key with hfp
  have hfpeq : idempotencyFingerprint e.H e.replayTtlMs t2 mr.price req key = fp := by
    rw [hfp]
    unfold idempotencyFingerprint
    rw [hwin]
  have hlt : t2 < t1 + e.replayTtlMs := by
    have hmod := Nat.div_add_mod t2 e.replayTtlMs
    have hmlt : t2 % e.replayTtlMs < e.replayTtlMs := Nat.mod_lt _ httl
    have hmul : e.replayTtlMs * (t1 / e.replayTtlMs) ≤ t1 := Nat.mul_div_le t1 e.replayTtlMs
    rw [← hwin] at hmod
    set x := e.replayTtlMs * (t1 / e.replayTtlMs) with hx
    omega
  have hshape := checkReplayAt_fresh rs t1 fp e.replayTtlMs hfresh1
  have hrep1 : (runPipeline { e with nowMs := t1 } req rs sp).replay
      = ⟨fp :: (fireTimers rs t1).present, (fp, t1 + e.replayTtlMs) :: (fireTimers rs t1).timers⟩ := by
    unfold runPipeline
    simp only [hroute, hik]
    have hcr1 : (checkReplayAt rs t1 fp e.replayTtlMs).1 = false := by rw [hshape]
    simp only [hfp] at hcr1 hshape
    simp only [hcr1, Bool.false_eq_true, if_false, mandateStage_replay]
    rw [hshape]
  have hF1timers : ∀ p ∈ (fireTimers rs t1).timers, p.1 ≠ fp := by
    intro p hpmem
    exact hfresh2 p ((mem_fireTimers_timers rs t1 p).mp hpmem).1
  have hmemS1 : ∀ t', t' < t1 + e.replayTtlMs →
      fp ∈ (fireTimers ⟨fp :: (fireTimers rs t1).present,
        (fp, t1 + e.replayTtlMs) :: (fireTimers rs t1).timers⟩ t').present := by
    intro t' ht'
    rw [mem_fireTimers_present]
    refine ⟨List.mem_cons_self _ _, ?_⟩
    intro p hpmem hpf
    rcases List.mem_cons.mp hpmem with hhead | htail
    · rw [hhead]
      omega
    · exact absurd hpf (hF1timers p htail)
  have hhas : hasAt (runPipeline { e with nowMs := t1 } req rs sp).replay t1 fp = true := by
    rw [hrep1, hasAt_iff]
    refine ⟨List.mem_cons_self _ _, ?_⟩
    intro p hpmem hpf
    rcases List.mem_cons.mp hpmem with hhead | htail
    · rw [hhead]
      omega
    · exact absurd hpf (hF1timers p htail)
  have hcr2 : (checkReplayAt (runPipeline { e with nowMs := t1 } req rs sp).replay t2 fp
      e.replayTtlMs).1 = true := by
    rw [hrep1]
    unfold checkReplayAt
    rw [if_pos ((strContains_iff_mem _ _).mpr (hmemS1 t2 hlt))]
  set R1 := (runPipeline { e with nowMs := t1 } req rs sp).replay with hR1
  refine ⟨hhas, ?_, ?_, ?_, ?_⟩
  · unfold runPipeline
    simp only [hroute, hik, hfpeq, hcr2, if_true]
  · unfold runPipeline
    simp only [hroute, hik, hfpeq, hcr2, if_true]
  · unfold runPipeline
    simp only [hroute, hik, hfpeq, hcr2, if_true]
    exact ⟨replayReceipt mr req fp, rfl, rfl, rfl⟩
  · unfold runPipeline
    simp only [hroute, hik, hfpeq, hcr2, if_true]

/-- Witness for C9: first request at 0 ms, identical retry at 4999 ms
with ttl 5000 (same window) is denied with 409. -/
theorem C9_insert_before_mandate_witness :
    (runPipeline
      { H := id, dateParse := fun _ => some 0,
        route := some { tool_id := "quote", provider_id := "prov", price := "0" },
        sigOk := true, nowMs := 4999, today := "2026-10-11", nowIso := "t",
        replayTtlMs := 5000, upstream := Except.ok (200, "data") }
      { method := "GET", path := "/api/v1/quote", query := [], idempotencyKey := some "K",
        mandateHeader := MandateHeader.absent, bodyStr := none }
      (runPipeline
        { H := id, dateParse := fun _ => some 0,
          route := some { tool_id := "quote", provider_id := "prov", price := "0" },
          sigOk := true, nowMs := 0, today := "2026-10-11", nowIso := "t",
          replayTtlMs := 5000, upstream := Except.ok (200, "data") }
        { method := "GET", path := "/api/v1/quote", query := [], idempotencyKey := some "K",
          mandateHeader := MandateHeader.absent, bodyStr := none }
        ReplayState.empty []).replay []).status = 409 :=
  (C9_insert_before_mandate
    { H := id, dateParse := fun _ => some 0,
      route := some { tool_id := "quote", provider_id := "prov", price := "0" },
      sigOk := true, nowMs := 0, today := "2026-10-11", nowIso := "t",
      replayTtlMs := 5000, upstream := Except.ok (200, "data") }
    { method := "GET", path := "/api/v1/quote", query := [], idempotencyKey := some "K",
      mandateHeader := MandateHeader.absent, bodyStr := none }
    ReplayState.empty [] []
    { tool_id := "quote", provider_id := "prov", price := "0" }
    "K" 0 4999 rfl rfl (by decide) (by decide) (by decide) (by decide) (by decide)).2.2.1

/-! ## Claim C1: receipts per pipeline path -/

/-- The per-path receipt behaviour of one pipeline run: which paths
store a receipt, which carry one in the body or the X-Receipt header,
and how outcome relates to the HTTP status. -/
def receiptInvariant (env : PipelineEnv) (req : GatewayRequest) (res : PipelineResult) : Prop :=
  (res.stage = Stage.routeNotFound → res.status = 404
    ∧ res.stored = [routeNotFoundReceipt req]
    ∧ res.bodyReceipt = some (routeNotFoundReceipt req)
    ∧ (routeNotFoundReceipt req).outcome = Outcome.DENIED)
  ∧ (res.stage = Stage.replayHit → res.status = 409 ∧ res.stored = []
    ∧ ∃ r, res.bodyReceipt = some r ∧ r.outcome = Outcome.DENIED
      ∧ r.reason_code = ReasonCode.REPLAY_DETECTED)
  ∧ (res.stage = Stage.malformedMandate → res.status = 400 ∧ res.stored = []
    ∧ res.bodyReceipt = none ∧ res.headerReceipt = none)
  ∧ (res.stage = Stage.mandateDenied → res.status = 403 ∧ res.stored = []
    ∧ ∃ r, res.bodyReceipt = some r ∧ r.outcome = Outcome.DENIED)
  ∧ (res.stage = Stage.upstreamOk → ∃ r st data,
      env.upstream = Except.ok (st, data) ∧ res.status = st ∧ res.stored = [r]
      ∧ res.headerReceipt = some r ∧ r.outcome = Outcome.SUCCESS
      ∧ r.reason_code = ReasonCode.OK)
  ∧ (res.stage = Stage.upstreamErr → res.status = 502
    ∧ ∃ r, res.stored = [r] ∧ res.bodyReceipt = some r ∧ r.outcome = Outcome.ERROR
      ∧ r.reason_code = ReasonCode.UPSTREAM_ERROR_NO_CHARGE)
  ∧ res.stored.length ≤ 1

theorem mandateStage_receiptInvariant (env : PipelineEnv) (mr : RouteMatch)
    (req : GatewayRequest) (hash : Option String) (rs : ReplayState) (sp : SpendTracker) :
    receiptInvariant env req (mandateStage env mr req hash rs sp) := by
  cases hmh : req.mandateHeader with
  | absent =>
      cases hu : env.upstream with
      | ok v =>
          obtain ⟨st, data⟩ := v
          refine ⟨by simp [mandateStage, hmh, proxyStage, hu], by simp [mandateStage, hmh, proxyStage, hu],
            by simp [mandateStage, hmh, proxyStage, hu], by simp [mandateStage, hmh, proxyStage, hu],
            ?_, by simp [mandateStage, hmh, proxyStage, hu], by simp [mandateStage, hmh, proxyStage, hu]⟩
          intro _
          exact ⟨successReceipt env mr req "SKIPPED" none hash data, st, data, hu,
            by simp [mandateStage, hmh, proxyStage, hu], by simp [mandateStage, hmh, proxyStage, hu],
            by simp [mandateStage, hmh, proxyStage, hu], rfl, rfl⟩
      | error e =>
          refine ⟨by simp [mandateStage, hmh, proxyStage, hu], by simp [mandateStage, hmh, proxyStage, hu],
            by simp [mandateStage, hmh, proxyStage, hu], by simp [mandateStage, hmh, proxyStage, hu],
            by simp [mandateStage, hmh, proxyStage, hu], ?_, by simp [mandateStage, hmh, proxyStage, hu]⟩
          intro _
          exact ⟨by simp [mandateStage, hmh, proxyStage, hu],
            upstreamErrorReceipt mr req "SKIPPED" none hash,
            by simp [mandateStage, hmh, proxyStage, hu],
            by simp [mandateStage, hmh, proxyStage, hu], rfl, rfl⟩
  | malformed =>
      refine ⟨by simp [mandateStage, hmh], by simp [mandateStage, hmh], ?_,
        by simp [mandateStage, hmh], by simp [mandateStage, hmh], by simp [mandateStage, hmh],
        by simp [mandateStage, hmh]⟩
      intro _
      exact ⟨by simp [mandateStage, hmh], by simp [mandateStage, hmh],
        by simp [mandateStage, hmh], by simp [mandateStage, hmh]⟩
  | valid m =>
      by_cases happ : (verifyMandate env.sigOk env.dateParse m
          { tool_id := orDefault mr.tool_id "unknown", price_usdc := orDefault mr.price "0",
            timestamp := env.nowIso } sp env.today).1.approved
      · cases hu : env.upstream with
        | ok v =>
            obtain ⟨st, data⟩ := v
            refine ⟨by simp [mandateStage, hmh, happ, proxyStage, hu],
              by simp [mandateStage, hmh, happ, proxyStage, hu],
              by simp [mandateStage, hmh, happ, proxyStage, hu],
              by simp [mandateStage, hmh, happ, proxyStage, hu],
              ?_, by simp [mandateStage, hmh, happ, proxyStage, hu],
              by simp [mandateStage, hmh, happ, proxyStage, hu]⟩
            intro _
            exact ⟨successReceipt env mr req "APPROVED" (some m.mandate_id) hash data, st, data,
              hu, by simp [mandateStage, hmh, happ, proxyStage, hu],
              by simp [mandateStage, hmh, happ, proxyStage, hu],
              by simp [mandateStage, hmh, happ, proxyStage, hu], rfl, rfl⟩
        | error e =>
            refine ⟨by simp [mandateStage, hmh, happ, proxyStage, hu],
              by simp [mandateStage, hmh, happ, proxyStage, hu],
              by simp [mandateStage, hmh, happ, proxyStage, hu],
              by simp [mandateStage, hmh, happ, proxyStage, hu],
              by simp [mandateStage, hmh, happ, proxyStage, hu], ?_,
              by simp [mandateStage, hmh, happ, proxyStage, hu]⟩
            intro _
            exact ⟨by simp [mandateStage, hmh, happ, proxyStage, hu],
              upstreamErrorReceipt mr req "APPROVED" (some m.mandate_id) hash,
              by simp [mandateStage, hmh, happ, proxyStage, hu],
              by simp [mandateStage, hmh, happ, proxyStage, hu], rfl, rfl⟩
      · refine ⟨by simp [mandateStage, hmh, happ], by simp [mandateStage, hmh, happ],
          by simp [mandateStage, hmh, happ], ?_, by simp [mandateStage, hmh, happ],
          by simp [mandateStage, hmh, happ], by simp [mandateStage, hmh, happ]⟩
        intro _
        refine ⟨by simp [mandateStage, hmh, happ], by simp [mandateStage, hmh, happ], ?_⟩
        exact ⟨mandateDeniedReceipt mr req m (verifyMandate env.sigOk env.dateParse m
          { tool_id := orDefault mr.tool_id "unknown", price_usdc := orDefault mr.price "0",
            timestamp := env.nowIso } sp env.today).1.reason_code hash,
          by simp [mandateStage, hmh, happ], rfl⟩

/-- C1 counterexample: a replay-denied request (409) stores no receipt
at all; the DENIED receipt is returned only in the response body. The
concrete run retries an identical request 1 ms after the first. -/
theorem C1_replay_stores_nothing_counterexample :
    (runPipeline
      { H := id, dateParse := fun _ => some 0,
        route := some { tool_id := "quote", provider_id := "prov", price := "0" },
        sigOk := true, nowMs := 1, today := "2026-10-11", nowIso := "t",
        replayTtlMs := 5000, upstream := Except.ok (200, "data") }
      { method := "GET", path := "/api/v1/quote", query := [], idempotencyKey := some "K",
        mandateHeader := MandateHeader.absent, bodyStr := none }
      (runPipeline
        { H := id, dateParse := fun _ => some 0,
          route := some { tool_id := "quote", provider_id := "prov", price := "0" },
          sigOk := true, nowMs := 0, today := "2026-10-11", nowIso := "t",
          replayTtlMs := 5000, upstream := Except.ok (200, "data") }
        { method := "GET", path := "/api/v1/quote", query := [], idempotencyKey := some "K",
          mandateHeader := MandateHeader.absent, bodyStr := none }
        ReplayState.empty []).replay []).status = 409
    ∧ (runPipeline
      { H := id, dateParse := fun _ => some 0,
        route := some { tool_id := "quote", provider_id := "prov", price := "0" },
        sigOk := true, nowMs := 1, today := "2026-10-11", nowIso := "t",
        replayTtlMs := 5000, upstream := Except.ok (200, "data") }
      { method := "GET", path := "/api/v1/quote", query := [], idempotencyKey := some "K",
        mandateHeader := MandateHeader.absent, bodyStr := none }
      (runPipeline
        { H := id, dateParse := fun _ => some 0,
          route := some { tool_id := "quote", provider_id := "prov", price := "0" },
          sigOk := true, nowMs := 0, today := "2026-10-11", nowIso := "t",
          replayTtlMs := 5000, upstream := Except.ok (200, "data") }
        { method := "GET", path := "/api/v1/quote", query := [], idempotencyKey := some "K",
          mandateHeader := MandateHeader.absent, bodyStr := none }
        ReplayState.empty []).replay []).stored.length = 0 := by
  refine ⟨by decide, by decide⟩

/-- C1 (amended): every pipeline run stores at most one receipt, and
receipts behave per path: route-not-found (404), proxy-success and
upstream-error (502) store exactly one receipt and carry it on the
response (header on the success path, body otherwise); the replay (409)
and mandate-denial (403) paths produce a DENIED receipt only in the
response body and store nothing; the malformed-mandate (400) path
carries no receipt at all; and on the proxy-success path the HTTP status
is the upstream status, so outcome SUCCESS corresponds to 2xx only when
the upstream answered 2xx. -/
theorem C1_receipt_paths (env : PipelineEnv) (req : GatewayRequest)
    (rs : ReplayState) (sp : SpendTracker) :
    receiptInvariant env req (runPipeline env req rs sp) := by
  cases hroute : env.route with
  | none =>
      refine ⟨?_, by simp [runPipeline, hroute], by simp [runPipeline, hroute],
        by simp [runPipeline, hroute], by simp [runPipeline, hroute],
        by simp [runPipeline, hroute], by simp [runPipeline, hroute]⟩
      intro _
      exact ⟨by simp [runPipeline, hroute], by simp [runPipeline, hroute],
        by simp [runPipeline, hroute], rfl⟩
  | some mr =>
      cases hik : req.idempotencyKey with
      | none =>
          have h := mandateStage_receiptInvariant env mr req none rs sp
          simpa [runPipeline, hroute, hik] using h
      | some key =>
          by_cases hcr : (checkReplayAt rs env.nowMs
              (idempotencyFingerprint env.H env.replayTtlMs env.nowMs mr.price req key)
              env.replayTtlMs).1
          · refine ⟨by simp [runPipeline, hroute, hik, hcr], ?_,
              by simp [runPipeline, hroute, hik, hcr], by simp [runPipeline, hroute, hik, hcr],
              by simp [runPipeline, hroute, hik, hcr], by simp [runPipeline, hroute, hik, hcr],
              by simp [runPipeline, hroute, hik, hcr]⟩
            intro _
            refine ⟨by simp [runPipeline, hroute, hik, hcr],
              by simp [runPipeline, hroute, hik, hcr], ?_⟩
            exact ⟨replayReceipt mr req
              (idempotencyFingerprint env.H env.replayTtlMs env.nowMs mr.price req key),
              by simp [runPipeline, hroute, hik, hcr], rfl, rfl⟩
          · have h := mandateStage_receiptInvariant env mr req
              (some (idempotencyFingerprint env.H env.replayTtlMs env.nowMs mr.price req key))
              (checkReplayAt rs env.nowMs
                (idempotencyFingerprint env.H env.replayTtlMs env.nowMs mr.price req key)
                env.replayTtlMs).2 sp
            simpa [runPipeline, hroute, hik, hcr] using h

/-- Witness for C1 on two concrete runs: the success path stores at most
one receipt, and the malformed-mandate run answers 400 with no receipt
stored or carried. -/
theorem C1_receipt_paths_witness :
    (runPipeline
      { H := id, dateParse := fun _ => some 0,
        route := some { tool_id := "quote", provider_id := "prov", price := "0" },
        sigOk := true, nowMs := 0, today := "2026-10-11", nowIso := "t",
        replayTtlMs := 5000, upstream := Except.ok (200, "data") }
      { method := "GET", path := "/api/v1/quote", query := [], idempotencyKey := none,
        mandateHeader := MandateHeader.absent, bodyStr := none }
      ReplayState.empty []).stored.length ≤ 1
    ∧ ((runPipeline
      { H := id, dateParse := fun _ => some 0,
        route := some { tool_id := "quote", provider_id := "prov", price := "0" },
        sigOk := true, nowMs := 0, today := "2026-10-11", nowIso := "t",
        replayTtlMs := 5000, upstream := Except.error "ECONNREFUSED" }
      { method := "GET", path := "/api/v1/quote", query := [], idempotencyKey := none,
        mandateHeader := MandateHeader.malformed, bodyStr := none }
      ReplayState.empty []).status = 400
      ∧ (runPipeline
      { H := id, dateParse := fun _ => some 0,
        route := some { tool_id := "quote", provider_id := "prov", price := "0" },
        sigOk := true, nowMs := 0, today := "2026-10-11", nowIso := "t",
        replayTtlMs := 5000, upstream := Except.error "ECONNREFUSED" }
      { method := "GET", path := "/api/v1/quote", query := [], idempotencyKey := none,
        mandateHeader := MandateHeader.malformed, bodyStr := none }
      ReplayState.empty []).stored = []
      ∧ (runPipeline
      { H := id, dateParse := fun _ => some 0,
        route := some { tool_id := "quote", provider_id := "prov", price := "0" },
        sigOk := true, nowMs := 0, today := "2026-10-11", nowIso := "t",
        replayTtlMs := 5000, upstream := Except.error "ECONNREFUSED" }
      { method := "GET", path := "/api/v1/quote", query := [], idempotencyKey := none,
        mandateHeader := MandateHeader.malformed, bodyStr := none }
      ReplayState.empty []).bodyReceipt = none
      ∧ (runPipeline
      { H := id, dateParse := fun _ => some 0,
        route := some { tool_id := "quote", provider_id := "prov", price := "0" },
        sigOk := true, nowMs := 0, today := "2026-10-11", nowIso := "t",
        replayTtlMs := 5000, upstream := Except.error "ECONNREFUSED" }
      { method := "GET", path := "/api/v1/quote", query := [], idempotencyKey := none,
        mandateHeader := MandateHeader.malformed, bodyStr := none }
      ReplayState.empty []).headerReceipt = none) :=
  ⟨(C1_receipt_paths
      { H := id, dateParse := fun _ => some 0,
        route := some { tool_id := "quote", provider_id := "prov", price := "0" },
        sigOk := true, nowMs := 0, today := "2026-10-11", nowIso := "t",
        replayTtlMs := 5000, upstream := Except.ok (200, "data") }
      { method := "GET", path := "/api/v1/quote", query := [], idempotencyKey := none,
        mandateHeader := MandateHeader.absent, bodyStr := none }
      ReplayState.empty []).2.2.2.2.2.2,
   (C1_receipt_paths
      { H := id, dateParse := fun _ => some 0,
        route := some { tool_id := "quote", provider_id := "prov", price := "0" },
        sigOk := true, nowMs := 0, today := "2026-10-11", nowIso := "t",
        replayTtlMs := 5000, upstream := Except.error "ECONNREFUSED" }
      { method := "GET", path := "/api/v1/quote", query := [], idempotencyKey := none,
        mandateHeader := MandateHeader.malformed, bodyStr := none }
      ReplayState.empty []).2.2.1 (by decide)⟩

end RequestTap
